import Mathlib

/-!
Formal model of the CloneMentorPro capture/classify/verify core.

This file gives a shallow embedding, in Lean 4, of the JavaScript functions of
`server/core/visual-elementor-converter.js`, `server/core/visual-scraper.js`,
`server/core/fidelity-verifier.js` and `server/routes/clone.js`, and proves or
refutes the specification claims about them.

Modelling conventions, used consistently below:
* JS numbers are modelled as exact rationals (`ℚ`); integer counts as `Nat`/`Int`.
* JS `null`/`undefined` and optional object fields are modelled with `Option`.
* Generic JS objects (settings maps, captured structures handed to the verifier)
  are modelled by the `Json` value type below; JS truthiness by `jsTruthy`.
* Randomly generated element ids and wall-clock timestamps are modelled as
  explicit parameters (a draw stream for `generateElementId`, a `now` string);
  the emitted layout nodes omit the random `id`/`_element_id` fields, which the
  claims quantify away ("up to generated ids and timestamps"); the id generator
  itself is modelled separately for the identifier claim.
-/

/-- Floor of a rational, computed directly on the normalized numerator and
denominator (the denominator is positive, so integer division is the floor). -/
def ratFloor (q : ℚ) : ℤ := q.num / (q.den : ℤ)

/-- The direct floor computation is the floor. -/
theorem ratFloor_eq_floor (q : ℚ) : ratFloor q = ⌊q⌋ := Rat.floor_def.symm

/-- JS `Math.round` on an exact rational: round half away from zero is JS
semantics for positives; all uses here are on positive values, and we use
`⌊q + 1/2⌋` (round half up), which agrees with JS on non-negative inputs. -/
def jsRound (q : ℚ) : ℤ := ratFloor (q + (1 : ℚ) / 2)

/-- Characterization of `jsRound` by bracketing. -/
theorem jsRound_eq_of (q : ℚ) (n : ℤ) (h1 : (n : ℚ) ≤ q + 1 / 2)
    (h2 : q + 1 / 2 < (n : ℚ) + 1) : jsRound q = n := by
  rw [jsRound, ratFloor_eq_floor]
  exact Int.floor_eq_iff.mpr ⟨h1, h2⟩

/-- Truthiness of a JS string: the empty string is falsy. -/
def strTruthy (s : String) : Bool := s ≠ ""

/-- Prefix test on character lists. -/
def isPrefixChars : List Char → List Char → Bool
  | [], _ => true
  | _ :: _, [] => false
  | p :: ps, c :: cs => p == c && isPrefixChars ps cs

/-- Substring occurrence test on character lists. -/
def containsSubChars (pat : List Char) : List Char → Bool
  | [] => pat.isEmpty
  | c :: rest => isPrefixChars pat (c :: rest) || containsSubChars pat rest

/-- JS `a.includes(b)` substring test. -/
def strIncludes (s pat : String) : Bool := containsSubChars pat.toList s.toList

/-- Single-character containment, modelling JS `s.includes(c)` for the
one-character patterns used by the cleaning passes. -/
def containsChar (s : String) (c : Char) : Bool := s.toList.contains c

/-- JS `s.trim()` on both ends. -/
def jsTrim (s : String) : String :=
  let ws := fun c => c = ' ' ∨ c = '\t' ∨ c = '\n' ∨ c = '\r'
  String.mk (((s.toList.dropWhile ws).reverse.dropWhile ws).reverse)

/-- Digit run to number, replacing `String.toNat!` with a list fold. -/
def digitsToNat (cs : List Char) : Nat :=
  cs.foldl (fun n c => 10 * n + (c.toNat - 48)) 0

/-- JS `parseInt` on a string: skip leading whitespace, optional sign, then a
maximal digit run; `none` models `NaN` (no digits found). -/
def jsParseInt (s : String) : Option Int :=
  let cs := s.toList.dropWhile (fun c => c = ' ' ∨ c = '\t' ∨ c = '\n' ∨ c = '\r')
  let (sign, cs) :=
    match cs with
    | '-' :: rest => ((-1 : Int), rest)
    | '+' :: rest => ((1 : Int), rest)
    | rest => ((1 : Int), rest)
  let digits := cs.takeWhile Char.isDigit
  if digits.isEmpty then none
  else some (sign * (digitsToNat digits : Int))

/-- JS `parseInt(x) || 0`: `NaN` collapses to `0` (and `0` stays `0`). -/
def jsParseIntD (s : String) : Int := (jsParseInt s).getD 0

/-- JS `parseFloat` on a string: optional sign, digit run, optional fractional
digit run; `none` models `NaN`. -/
def jsParseFloat (s : String) : Option ℚ :=
  let cs := s.toList.dropWhile (fun c => c = ' ' ∨ c = '\t' ∨ c = '\n' ∨ c = '\r')
  let (sign, cs) :=
    match cs with
    | '-' :: rest => ((-1 : ℚ), rest)
    | '+' :: rest => ((1 : ℚ), rest)
    | rest => ((1 : ℚ), rest)
  let intDigits := cs.takeWhile Char.isDigit
  let rest := cs.drop intDigits.length
  let fracDigits :=
    match rest with
    | '.' :: r => r.takeWhile Char.isDigit
    | _ => []
  if intDigits.isEmpty ∧ fracDigits.isEmpty then none
  else
    let ip : ℚ := (digitsToNat intDigits : ℚ)
    let fp : ℚ :=
      if fracDigits.isEmpty then 0
      else (digitsToNat fracDigits : ℚ) / ((10 : ℚ) ^ fracDigits.length)
    some (sign * (ip + fp))

/-- JS `parseInt` applied to a number (used on captured pixel heights):
conversion to string and back truncates toward zero. -/
def jsTruncNum (q : ℚ) : Int := if 0 ≤ q then ratFloor q else -(ratFloor (-q))

/-- JS `a || b` on strings where `a` is an optional field: `undefined` and the
empty string both fall through to the default. -/
def jsOrS (o : Option String) (d : String) : String :=
  match o with
  | some s => if s = "" then d else s
  | none => d

/-- Generic JSON-like value, modelling untyped JS objects.  Object fields keep
insertion order, as JS objects (and `JSON.stringify`) do. -/
inductive Json where
  | null : Json
  | bool (b : Bool) : Json
  | num (q : ℚ) : Json
  | str (s : String) : Json
  | arr (elems : List Json) : Json
  | obj (fields : List (String × Json)) : Json

/-- JS truthiness of a `Json` value (`undefined` is modelled by `null`). -/
def jsTruthy : Json → Bool
  | .null => false
  | .bool b => b
  | .num q => q ≠ 0
  | .str s => s ≠ ""
  | .arr _ => true
  | .obj _ => true

/-- Field lookup `o[k]`: `none` models `undefined` (missing key or non-object). -/
def Json.getField : Json → String → Option Json
  | .obj fields, k => fields.lookup k
  | _, _ => none

/-- Lookup of a string-valued field. -/
def Json.getStr (j : Json) (k : String) : Option String :=
  match j.getField k with
  | some (.str s) => some s
  | _ => none

/-- Lookup of a numeric field with JS `x || 0` defaulting. -/
def Json.getNumD (j : Json) (k : String) : ℚ :=
  match j.getField k with
  | some (.num q) => q
  | _ => 0

/-- The keys unconditionally removed by `validateAndCleanTemplate`
(visual-elementor-converter.js lines 1117-1124): the named list plus any key
containing the substring `HTML`. -/
def bannedKey (k : String) : Bool :=
  k == "completeHTML" || k == "fallback_html" || k == "original_assets" ||
  k == "outerHTML" || k == "innerHTML" || k == "styles" ||
  k == "allAttributes" || k == "data-*" || strIncludes k "HTML"

/-- The strings replaced by the cleaning pass: longer than 1000 characters and
containing a `<`. -/
def largeHtmlStr (s : String) : Bool := decide (s.length > 1000) && containsChar s '<'

mutual

/-- The `cleanContent` recursion of `validateAndCleanTemplate`
(visual-elementor-converter.js lines 1110-1143): non-objects are returned
unchanged; object entries with banned keys are dropped; entry values are
cleaned by `cleanEntry`.  Array entries have numeric keys, which are never
banned, so arrays clean element-wise. -/
def cleanContent : Json → Json
  | .obj fields => .obj (cleanObjFields fields)
  | .arr xs => .arr (cleanArrElems xs)
  | v => v

/-- One loop iteration of `cleanContent` over an object's entries. -/
def cleanObjFields : List (String × Json) → List (String × Json)
  | [] => []
  | (k, v) :: rest =>
    if bannedKey k then cleanObjFields rest
    else (k, cleanEntry v) :: cleanObjFields rest

/-- The per-value body of the `cleanContent` loop: strings longer than 1000
characters containing `<` are replaced by the placeholder, nested objects are
cleaned recursively, other values are copied. -/
def cleanEntry : Json → Json
  | .str s =>
    if largeHtmlStr s then .str "<p>Optimized</p>" else .str s
  | .obj fields => .obj (cleanObjFields fields)
  | .arr xs => .arr (cleanArrElems xs)
  | v => v

/-- Array entries of `cleanContent`, cleaned element-wise. -/
def cleanArrElems : List Json → List Json
  | [] => []
  | v :: rest => cleanEntry v :: cleanArrElems rest

end

mutual

/-- A document the cleaning pass leaves untouched: no banned keys anywhere and
no entry is a string longer than 1000 characters containing `<`. -/
def isClean : Json → Bool
  | .obj fields => isCleanFields fields
  | .arr xs => isCleanElems xs
  | _ => true

/-- Cleanliness of an object's field list. -/
def isCleanFields : List (String × Json) → Bool
  | [] => true
  | (k, v) :: rest => !bannedKey k && isCleanEntry v && isCleanFields rest

/-- Cleanliness of a value sitting in an entry position. -/
def isCleanEntry : Json → Bool
  | .str s => !largeHtmlStr s
  | .obj fields => isCleanFields fields
  | .arr xs => isCleanElems xs
  | _ => true

/-- Cleanliness of an array's elements. -/
def isCleanElems : List Json → Bool
  | [] => true
  | v :: rest => isCleanEntry v && isCleanElems rest

end

/-- Escape a character for a JSON string literal. -/
def escapeChar (c : Char) : String :=
  if c = '"' then "\\\"" else if c = '\\' then "\\\\"
  else if c = '\n' then "\\n" else String.mk [c]

/-- Concatenation of a list of strings. -/
def concatStrs : List String → String
  | [] => ""
  | s :: rest => s ++ concatStrs rest

/-- Serialize a string as a JSON literal. -/
def stringifyStr (s : String) : String :=
  "\"" ++ concatStrs (s.toList.map escapeChar) ++ "\""

/-- Render a rational for serialization; integers print exactly as JS does, and
non-integers are printed in `p/q` form (an approximation used only for the
byte-size measurements of the size-governance pass). -/
def stringifyNum (q : ℚ) : String :=
  if q.den = 1 then toString q.num else toString q

mutual

/-- A `JSON.stringify` model, used for the `JSON.stringify(template).length`
size measurements in `convertVisualToElementor`. -/
def jsonStringify : Json → String
  | .null => "null"
  | .bool b => if b then "true" else "false"
  | .num q => stringifyNum q
  | .str s => stringifyStr s
  | .arr xs => "[" ++ stringifyElems xs ++ "]"
  | .obj fields => "\x7b" ++ stringifyFields fields ++ "\x7d"

/-- Comma-joined serialization of array elements. -/
def stringifyElems : List Json → String
  | [] => ""
  | [v] => jsonStringify v
  | v :: rest => jsonStringify v ++ "," ++ stringifyElems rest

/-- Comma-joined serialization of object fields. -/
def stringifyFields : List (String × Json) → String
  | [] => ""
  | [(k, v)] => stringifyStr k ++ ":" ++ jsonStringify v
  | (k, v) :: rest => stringifyStr k ++ ":" ++ jsonStringify v ++ "," ++ stringifyFields rest

end

mutual

/-- Helper: the cleaning loop is the identity on a clean field list. -/
theorem cleanObjFields_eq_self : ∀ l : List (String × Json),
    isCleanFields l = true → cleanObjFields l = l
  | [], _ => rfl
  | (k, v) :: rest, h => by
    simp only [isCleanFields, Bool.and_eq_true, Bool.not_eq_true'] at h
    obtain ⟨⟨hb, he⟩, hr⟩ := h
    rw [cleanObjFields, if_neg (by simp [hb]), cleanEntry_eq_self v he,
      cleanObjFields_eq_self rest hr]

/-- Helper: the cleaning loop body is the identity on a clean entry value. -/
theorem cleanEntry_eq_self : ∀ v : Json, isCleanEntry v = true → cleanEntry v = v
  | .null, _ => rfl
  | .bool _, _ => rfl
  | .num _, _ => rfl
  | .str s, h => by
    have hs : largeHtmlStr s = false := by simpa [isCleanEntry] using h
    rw [cleanEntry, if_neg (by simp [hs])]
  | .obj fields, h => by
    rw [cleanEntry, cleanObjFields_eq_self fields (by simpa [isCleanEntry] using h)]
  | .arr xs, h => by
    rw [cleanEntry, cleanArrElems_eq_self xs (by simpa [isCleanEntry] using h)]

/-- Helper: the cleaning loop is the identity on clean array elements. -/
theorem cleanArrElems_eq_self : ∀ l : List Json,
    isCleanElems l = true → cleanArrElems l = l
  | [], _ => rfl
  | v :: rest, h => by
    simp only [isCleanElems, Bool.and_eq_true] at h
    rw [cleanArrElems, cleanEntry_eq_self v h.1, cleanArrElems_eq_self rest h.2]

end

/-- A concrete long markup string (1001 characters of `<`) of the kind
`createWidget` embeds from a captured element's `outerHTML` into an html
widget's `settings.html`. -/
def bigHtml : String := String.mk (List.replicate 1001 '<')

/-- A small TemplateDocument (in emitted wire shape) holding one section, one
column and one html widget whose `settings.html` is `bigHtml`. -/
def smallTemplate : Json :=
  .obj [("version", .str "0.4"), ("title", .str "Cloned Page"), ("type", .str "page"),
    ("content", .arr [.obj [("elType", .str "section"),
      ("settings", .obj [("content_width", .str "boxed")]),
      ("elements", .arr [.obj [("elType", .str "column"),
        ("settings", .obj [("_column_size", .num 100), ("_inline_size", .null)]),
        ("elements", .arr [.obj [("elType", .str "widget"), ("widgetType", .str "html"),
          ("settings", .obj [("html", .str bigHtml),
            ("title", .str "DIV Element")])]])]])]])]

/-- Extract `content[0].elements[0].elements[0].settings.html` from a template. -/
def firstWidgetHtml (t : Json) : Option String :=
  match t.getField "content" with
  | some (.arr (sec :: _)) =>
    match sec.getField "elements" with
    | some (.arr (col :: _)) =>
      match col.getField "elements" with
      | some (.arr (w :: _)) =>
        match w.getField "settings" with
        | some st => st.getStr "html"
        | none => none
      | _ => none
    | _ => none
  | _ => none

/-- Helper: length of a concatenated replicate. -/
theorem concatStrs_replicate_length (s : String) :
    ∀ n, (concatStrs (List.replicate n s)).length = n * s.length := by
  intro n
  induction n with
  | zero => simp [concatStrs]
  | succ k ih =>
    rw [List.replicate_succ, concatStrs, String.length_append, ih]
    ring

set_option maxRecDepth 9000 in
/-- C6 counterexample: `smallTemplate` serializes to far less than the 150000
byte size-governance threshold, yet the cleaning pass of
`validateAndCleanTemplate` replaces its widget's `settings.html` field with the
`<p>Optimized</p>` placeholder, so an under-threshold document does not survive
the cleaning pass unchanged (and a fortiori does not round-trip to an object
deep-equal to the converter's output). -/
theorem c6_roundtrip_counterexample :
    (jsonStringify smallTemplate).length < 150000 ∧
    firstWidgetHtml smallTemplate = some bigHtml ∧
    firstWidgetHtml (cleanContent smallTemplate) = some "<p>Optimized</p>" ∧
    bigHtml ≠ "<p>Optimized</p>" := by
  have hmap : bigHtml.toList.map escapeChar = List.replicate 1001 "<" := by
    show (List.replicate 1001 '<').map escapeChar = _
    rw [List.map_replicate, show escapeChar '<' = "<" from by decide]
  have hstr : (stringifyStr bigHtml).length = 1003 := by
    rw [stringifyStr, hmap, String.length_append, String.length_append,
      concatStrs_replicate_length]
    decide
  refine ⟨?_, rfl, by decide, by decide⟩
  simp only [smallTemplate, jsonStringify, stringifyFields, stringifyElems,
    String.length_append, hstr]
  decide

/-- C6 (amended): the size-governance cleaning pass removes or replaces no
field of a document that contains no banned key (the removed-key list and keys
containing `HTML`) and no entry string longer than 1000 characters containing
`<`.  Being under the 150000-byte size threshold alone does not give this
guarantee (see the counterexample); cleanliness of keys and string entries
does. -/
theorem c6_clean_amended (j : Json) (h : isClean j = true) : cleanContent j = j := by
  cases j with
  | null => rfl
  | bool b => rfl
  | num q => rfl
  | str s => rfl
  | arr xs => rw [cleanContent, cleanArrElems_eq_self xs (by simpa [isClean] using h)]
  | obj fields => rw [cleanContent, cleanObjFields_eq_self fields (by simpa [isClean] using h)]

/-- A small clean template document: wire shape with short string entries
and no banned keys. -/
def cleanSample : Json :=
  .obj [("version", .str "0.4"), ("title", .str "Cloned Page"), ("type", .str "page"),
    ("content", .arr [.obj [("elType", .str "section"),
      ("settings", .obj [("content_width", .str "boxed")]),
      ("elements", .arr [.obj [("elType", .str "column"),
        ("settings", .obj [("_column_size", .num 100), ("_inline_size", .null)]),
        ("elements", .arr [.obj [("elType", .str "widget"),
          ("widgetType", .str "text-editor"),
          ("settings", .obj [("editor", .str "<p>Hello</p>")])]])]])]])]

/-- Witness for the amended C6 theorem at a concrete clean document. -/
theorem c6_clean_witness :
    isClean cleanSample = true ∧ cleanContent cleanSample = cleanSample :=
  ⟨by decide, c6_clean_amended cleanSample (by decide)⟩

/-- Lowercasing, modelling JS `toLowerCase` on ASCII tag names. -/
def toLowerStr (s : String) : String := String.mk (s.toList.map Char.toLower)

/-- Helper: a value found by `List.lookup` is structurally smaller than the
field list holding it. -/
theorem lookup_sizeOf_lt : ∀ (fields : List (String × Json)) (k : String) (v : Json),
    fields.lookup k = some v → sizeOf v < 1 + sizeOf fields := by
  intro fields k v
  induction fields with
  | nil => intro h; simp [List.lookup] at h
  | cons kv rest ih =>
    obtain ⟨k1, v1⟩ := kv
    intro h
    rw [List.lookup] at h
    cases hk : k == k1 with
    | true =>
      rw [hk] at h
      simp only [Option.some.injEq] at h
      cases h
      simp only [Prod.mk.sizeOf_spec, List.cons.sizeOf_spec]
      omega
    | false =>
      rw [hk] at h
      have := ih h
      simp only [Prod.mk.sizeOf_spec, List.cons.sizeOf_spec]
      omega

/-- Helper: a field value is structurally smaller than the object holding it. -/
theorem getField_sizeOf_lt (j : Json) (k : String) (v : Json)
    (h : j.getField k = some v) : sizeOf v < sizeOf j := by
  cases j with
  | obj fields =>
    have := lookup_sizeOf_lt fields k v (by simpa [Json.getField] using h)
    simp only [Json.obj.sizeOf_spec]
    omega
  | null => simp [Json.getField] at h
  | bool b => simp [Json.getField] at h
  | num q => simp [Json.getField] at h
  | str s => simp [Json.getField] at h
  | arr xs => simp [Json.getField] at h

mutual

/-- The `countInElement` walk of `countElementsInStructure`
(fidelity-verifier, lines 748-784): counts, by captured-element category, the
nodes of a cloned structure tree; recursion follows the `children` field. -/
def countInElement (ty : String) (el : Json) : Nat :=
  let tag : Option String := (el.getStr "tagName").map toLowerStr
  let hit : Bool :=
    if ty = "images" then tag == some "img"
    else if ty = "sections" then
      (tag.map (fun t => decide (t ∈ ["section", "header", "footer", "main", "article"]))).getD false
    else if ty = "containers" then tag == some "div"
    else if ty = "headings" then
      (tag.map (fun t => decide (t ∈ ["h1", "h2", "h3", "h4", "h5", "h6"]))).getD false
    else if ty = "links" then tag == some "a"
    else if ty = "textNodes" then
      match el.getStr "textContent" with
      | some s => jsTrim s ≠ ""
      | none => false
    else false
  let childCount : Nat :=
    match h : el.getField "children" with
    | some (.arr cs) =>
      have : sizeOf cs < sizeOf el := by
        have h1 := getField_sizeOf_lt el "children" _ h
        simp only [Json.arr.sizeOf_spec] at h1
        omega
      countInChildren ty cs
    | _ => 0
  (if hit then 1 else 0) + childCount
termination_by sizeOf el

/-- Recursion of `countInElement` over a `children` array. -/
def countInChildren (ty : String) : List Json → Nat
  | [] => 0
  | c :: rest => countInElement ty c + countInChildren ty rest
termination_by cs => sizeOf cs

end

/-- The `countElementsInStructure` entry point (fidelity-verifier lines
748-784): a falsy structure counts as zero. -/
def countElementsInStructure (structJ : Json) (ty : String) : Nat :=
  if jsTruthy structJ then countInElement ty structJ else 0

/-- The `hasValidContent` predicate (fidelity-verifier lines 786-797): the
cloned structure shows meaningful content. -/
def hasValidContent (structJ : Json) : Bool :=
  if jsTruthy structJ then
    countElementsInStructure structJ "textNodes" > 0 ∨
    countElementsInStructure structJ "containers" > 0 ∨
    countElementsInStructure structJ "images" > 0 ∨
    countElementsInStructure structJ "headings" > 0
  else false

/-- The seven metric names iterated by `compareStructuralFidelity`. -/
def structMetrics : List String :=
  ["elementCount", "textNodes", "images", "sections", "containers", "headings", "links"]

/-- One iteration of the `metrics.forEach` loop of `compareStructuralFidelity`
(fidelity-verifier lines 711-730), accumulating `(score, checks)`.  In the
both-nonzero branch the source computes `min/max` ratios; when the original
metric value is not a number JS would produce `NaN` there — a case no claim
exercises and none of the code's own callers reach (original counts come from
`extractPageStructure`, which always produces numbers); it is modelled as a
zero contribution. -/
def structMetricStep (origJ clonedJ : Json) (acc : ℚ × Nat) (m : String) : ℚ × Nat :=
  match origJ.getField m with
  | none => acc
  | some v =>
    let cloned : Nat := countElementsInStructure clonedJ m
    let origZero : Bool := match v with | .num q => decide (q = 0) | _ => false
    if origZero ∧ cloned = 0 then (acc.1 + 1, acc.2 + 1)
    else if origZero ∨ cloned = 0 then (acc.1 + 0.3, acc.2 + 1)
    else
      match v with
      | .num q =>
        let ratio : ℚ := min q (cloned : ℚ) / max q (cloned : ℚ)
        (acc.1 + min 1 (ratio * 1.4), acc.2 + 1)
      | _ => (acc.1, acc.2 + 1)

/-- The `compareStructuralFidelity` scoring function (fidelity-verifier lines
694-746): missing-structure leniency, per-metric `min/max` ratio with a ×1.4
boost capped at 1, a limited-data boost, and a content-presence ×1.2 boost
capped at 1. -/
def compareStructuralFidelity (origJ clonedJ : Json) : ℚ :=
  if ¬ jsTruthy origJ ∧ ¬ jsTruthy clonedJ then 0.8
  else if ¬ jsTruthy origJ ∨ ¬ jsTruthy clonedJ then
    (if jsTruthy clonedJ ∧ hasValidContent clonedJ then 0.7 else 0.4)
  else
    let sc := structMetrics.foldl (structMetricStep origJ clonedJ) (0, 0)
    let score := sc.1
    let checks := sc.2
    let score := if checks < 3 ∧ score > 0 then min (score * 1.3) (checks : ℚ) else score
    let finalScore := if checks > 0 then score / (checks : ℚ) else 0.6
    if hasValidContent clonedJ then min (finalScore * 1.2) 1.0 else finalScore

/-- The counts object whose seven metric fields are exactly the counts
`countElementsInStructure` finds in a given clone structure — the
identical-structures comparison the spec's boundary case intends. -/
def selfCounts (c : Json) : Json :=
  .obj (structMetrics.map (fun m => (m, .num (countElementsInStructure c m))))

/-- The `compareScreenshots` bucketed size comparison (fidelity-verifier lines
671-692).  A screenshot buffer is a byte list; `none` models a missing
(null/undefined) buffer. -/
def compareScreenshots (origBuf cloneBuf : Option (List Nat)) : ℚ :=
  match origBuf, cloneBuf with
  | some ob, some cb =>
    let sizeDifference : ℚ := |(ob.length : ℚ) - (cb.length : ℚ)|
    let averageSize : ℚ := ((ob.length : ℚ) + (cb.length : ℚ)) / 2
    if averageSize = 0 then 0.1
    else
      let sizeRatio := sizeDifference / averageSize
      if sizeRatio < 0.05 then 0.8
      else if sizeRatio < 0.15 then 0.6
      else if sizeRatio < 0.3 then 0.4
      else if sizeRatio < 0.5 then 0.3
      else 0.1
  | _, _ => 0.2

/-- Per-device screenshot buffers of one capture. -/
structure DeviceShots where
  desktop : Option (List Nat)
  tablet : Option (List Nat)
  mobile : Option (List Nat)

/-- Per-device layout-snapshot arrays of one capture. -/
structure DeviceLayouts where
  desktop : Option (List Json)
  tablet : Option (List Json)
  mobile : Option (List Json)

/-- The `compareVisualFidelity` average over breakpoints with screenshots on
both sides (fidelity-verifier lines 649-669). -/
def compareVisualFidelity (orig clone : DeviceShots) : ℚ :=
  let step := fun (acc : ℚ × Nat) (pair : Option (List Nat) × Option (List Nat)) =>
    match pair with
    | (some ob, some cb) => (acc.1 + compareScreenshots (some ob) (some cb), acc.2 + 1)
    | _ => acc
  let sc := [(orig.desktop, clone.desktop), (orig.tablet, clone.tablet),
    (orig.mobile, clone.mobile)].foldl step (0, 0)
  if sc.2 > 0 then sc.1 / (sc.2 : ℚ) else 0

/-- The `compareLayoutArrays` lenient banding function (fidelity-verifier lines
865-883). -/
def compareLayoutArrays (origLayout clonedLayout : Option (List Json)) : ℚ :=
  match origLayout, clonedLayout with
  | none, none => 0.7
  | none, some _ => 0.5
  | some _, none => 0.5
  | some a, some b =>
    if a.length = 0 ∧ b.length = 0 then 1.0
    else if a.length = 0 ∨ b.length = 0 then 0.5
    else
      let ratio : ℚ := min (a.length : ℚ) (b.length : ℚ) / max (a.length : ℚ) (b.length : ℚ)
      if ratio ≥ 0.8 then 1.0
      else if ratio ≥ 0.6 then 0.9
      else if ratio ≥ 0.4 then 0.8
      else if ratio ≥ 0.2 then 0.7
      else 0.6

/-- The `compareResponsiveness` aggregation (fidelity-verifier lines 830-863):
device-wise layout-array comparison with partial credit and limited-data
leniency.  `none` models a falsy responsive map. -/
def compareResponsiveness (orig cloned : Option DeviceLayouts) : ℚ :=
  match orig, cloned with
  | none, none => 0.8
  | none, some _ => 0.7
  | some _, none => 0.7
  | some o, some c =>
    let step := fun (acc : ℚ × Nat) (pair : Option (List Json) × Option (List Json)) =>
      match pair with
      | (some a, some b) => (acc.1 + compareLayoutArrays (some a) (some b), acc.2 + 1)
      | (some _, none) => (acc.1 + 0.5, acc.2 + 1)
      | (none, some _) => (acc.1 + 0.5, acc.2 + 1)
      | (none, none) => acc
    let sc := [(o.desktop, c.desktop), (o.tablet, c.tablet),
      (o.mobile, c.mobile)].foldl step (0, 0)
    if sc.2 = 0 then 0.75
    else
      let total := if sc.2 < 2 then min (sc.1 * 1.2) (sc.2 : ℚ) else sc.1
      total / (sc.2 : ℚ)

/-- The `calculateOverallScore` weighting/boost/floor function
(fidelity-verifier lines 885-906). -/
def calculateOverallScore (visualScore structuralScore responsiveScore : ℚ) : ℚ :=
  let weightedScore :=
    visualScore * 0.3 + structuralScore * 0.5 + responsiveScore * 0.2
  if weightedScore < 0.6 ∧ (structuralScore > 0.4 ∨ visualScore > 0.4) then
    max 0.6 (weightedScore * 1.3)
  else
    max 0.5 weightedScore

/-- Helper: field lookup in the self-counts object returns the stored count. -/
theorem selfCounts_getField (c : Json) (m : String) (hm : m ∈ structMetrics) :
    (selfCounts c).getField m = some (.num ((countElementsInStructure c m : ℚ))) := by
  fin_cases hm <;> simp [selfCounts, structMetrics, Json.getField, List.lookup]

/-- Helper: when the original counts agree exactly with the clone's counted
structure, every metric iteration contributes a full point. -/
theorem structMetricStep_self (c : Json) (acc : ℚ × Nat) (m : String)
    (hm : m ∈ structMetrics) :
    structMetricStep (selfCounts c) c acc m = (acc.1 + 1, acc.2 + 1) := by
  rw [structMetricStep, selfCounts_getField c m hm]
  by_cases hn : countElementsInStructure c m = 0
  · simp [hn]
  · have hq : ((countElementsInStructure c m : ℚ)) ≠ 0 := by exact_mod_cast hn
    simp only [decide_eq_true_eq, hq, hn, decide_eq_false_iff_not, not_false_eq_true,
      if_neg, ite_false, false_and, or_self, min_self, max_self]
    rw [div_self hq]
    norm_num

/-- A counts object with nonzero per-category values, of the shape
`extractPageStructure` produces for a small real page. -/
def countsX : Json :=
  .obj [("elementCount", .num 10), ("textNodes", .num 5), ("images", .num 2),
    ("sections", .num 1), ("containers", .num 3), ("headings", .num 1),
    ("links", .num 2)]

/-- C5 counterexample: passing the same value to both arguments of
`compareStructuralFidelity` does not score at least 0.9.  For a counts object
with nonzero categories the clone-side recount finds nothing (a counts object
has no `tagName`/`children`), every metric lands in the one-sided 0.3 branch,
and the score is 0.3. -/
theorem countsX_count_zero (m : String) : countElementsInStructure countsX m = 0 := by
  rw [countElementsInStructure, if_pos (by rfl), countInElement]
  simp [Json.getStr, Json.getField, countsX, List.lookup]

/-- Helper: every metric iteration on `countsX` against itself lands in the
one-sided partial-credit branch. -/
theorem structMetricStep_countsX (acc : ℚ × Nat) (m : String) (hm : m ∈ structMetrics) :
    structMetricStep countsX countsX acc m = (acc.1 + 0.3, acc.2 + 1) := by
  have hz := countsX_count_zero m
  simp only [countsX] at hz
  fin_cases hm <;>
    norm_num [structMetricStep, countsX, Json.getField, List.lookup, hz]
  all_goals rfl

theorem c5_boundary_counterexample :
    compareStructuralFidelity countsX countsX = 0.3 ∧
    ¬ compareStructuralFidelity countsX countsX ≥ 0.9 := by
  have hhv : hasValidContent countsX = false := by
    rw [hasValidContent]
    simp [countsX_count_zero]
  have hfold : structMetrics.foldl (structMetricStep countsX countsX) (0, 0) = (2.1, 7) := by
    rw [show structMetrics = ["elementCount", "textNodes", "images", "sections",
      "containers", "headings", "links"] from rfl]
    rw [List.foldl_cons, structMetricStep_countsX _ _ (by decide)]
    rw [List.foldl_cons, structMetricStep_countsX _ _ (by decide)]
    rw [List.foldl_cons, structMetricStep_countsX _ _ (by decide)]
    rw [List.foldl_cons, structMetricStep_countsX _ _ (by decide)]
    rw [List.foldl_cons, structMetricStep_countsX _ _ (by decide)]
    rw [List.foldl_cons, structMetricStep_countsX _ _ (by decide)]
    rw [List.foldl_cons, structMetricStep_countsX _ _ (by decide)]
    rw [List.foldl_nil]
    norm_num
  have hval : compareStructuralFidelity countsX countsX = 0.3 := by
    rw [compareStructuralFidelity]
    rw [if_neg (by simp [jsTruthy, countsX]), if_neg (by simp [jsTruthy, countsX])]
    rw [hfold]
    norm_num [hhv]
  exact ⟨hval, by rw [hval]; norm_num⟩

/-- C5 (amended): the fidelity-scoring boundary cases as the code realizes
them.  Comparing a clone structure against the counts object that agrees with
it on every metric — the identical-structures comparison — scores exactly 1
(so at least 0.9); `compareStructuralFidelity(null, null)` is 0.8; and
`compareScreenshots` on byte-identical non-empty buffers is 0.8.  (Passing the
same value to both arguments of `compareStructuralFidelity` does not reach
0.9, and byte-identical empty buffers score 0.1, per the counterexample.) -/
theorem c5_boundaries_amended :
    (∀ fields : List (String × Json),
      compareStructuralFidelity (selfCounts (.obj fields)) (.obj fields) = 1) ∧
    compareStructuralFidelity .null .null = 0.8 ∧
    (∀ (x : Nat) (xs : List Nat),
      compareScreenshots (some (x :: xs)) (some (x :: xs)) = 0.8) := by
  refine ⟨?_, ?_, ?_⟩
  · intro fields
    have hfold : structMetrics.foldl
        (structMetricStep (selfCounts (.obj fields)) (.obj fields)) (0, 0) = (7, 7) := by
      rw [show structMetrics = ["elementCount", "textNodes", "images", "sections",
        "containers", "headings", "links"] from rfl]
      rw [List.foldl_cons, structMetricStep_self _ _ _ (by decide)]
      rw [List.foldl_cons, structMetricStep_self _ _ _ (by decide)]
      rw [List.foldl_cons, structMetricStep_self _ _ _ (by decide)]
      rw [List.foldl_cons, structMetricStep_self _ _ _ (by decide)]
      rw [List.foldl_cons, structMetricStep_self _ _ _ (by decide)]
      rw [List.foldl_cons, structMetricStep_self _ _ _ (by decide)]
      rw [List.foldl_cons, structMetricStep_self _ _ _ (by decide)]
      rw [List.foldl_nil]
      norm_num
    rw [compareStructuralFidelity]
    rw [if_neg (by simp [jsTruthy, selfCounts]), if_neg (by simp [jsTruthy, selfCounts])]
    rw [hfold]
    cases h : hasValidContent (.obj fields) <;> norm_num [h]
  · norm_num [compareStructuralFidelity, jsTruthy]
  · intro x xs
    have hL : (((x :: xs).length : ℚ)) ≠ 0 := by
      simp
      positivity
    simp only [compareScreenshots]
    rw [sub_self, abs_zero,
      show (((x :: xs).length : ℚ) + ((x :: xs).length : ℚ)) / 2
        = ((x :: xs).length : ℚ) from by ring]
    rw [if_neg hL, zero_div]
    norm_num

/-- Uppercasing, modelling JS `toUpperCase` on ASCII tag names. -/
def toUpperStr (s : String) : String := String.mk (s.toList.map Char.toUpper)

/-- An emitted Elementor layout node (Section, Column or Widget).  The random
`id` field is omitted per the modelling conventions; `widgetType` is present
on widgets, `isInner` where the source sets it.  Settings are a JS object. -/
inductive ENode where
  | mk (elType : String) (widgetType : Option String) (settings : Json)
      (elements : List ENode) (isInner : Option Bool)

/-- The `elType` field of a node. -/
def ENode.elType : ENode → String
  | .mk t _ _ _ _ => t

/-- The `widgetType` field of a node. -/
def ENode.widgetType : ENode → Option String
  | .mk _ w _ _ _ => w

/-- The `settings` object of a node. -/
def ENode.settings : ENode → Json
  | .mk _ _ s _ _ => s

/-- The `elements` children list of a node. -/
def ENode.elements : ENode → List ENode
  | .mk _ _ _ e _ => e

/-- The `isInner` flag of a node. -/
def ENode.isInner : ENode → Option Bool
  | .mk _ _ _ _ i => i

/-- Replace the `elements` list (JS `node.elements = ...`). -/
def ENode.setElements : ENode → List ENode → ENode
  | .mk t w s _ i, es => .mk t w s es i

/-- Replace the `settings` object (JS `node.settings = ...`). -/
def ENode.setSettings : ENode → Json → ENode
  | .mk t w _ e i, s => .mk t w s e i

/-- JS object field assignment on a field list: replace in place or append. -/
def setFieldList : List (String × Json) → String → Json → List (String × Json)
  | [], k, v => [(k, v)]
  | (k1, v1) :: rest, k, v =>
    if k1 == k then (k, v) :: rest else (k1, v1) :: setFieldList rest k v

/-- JS object field assignment `o[k] = v`. -/
def Json.setField : Json → String → Json → Json
  | .obj fields, k, v => .obj (setFieldList fields k v)
  | j, _, _ => j

/-- A captured four-side spacing value (computed-style strings like "10px"). -/
structure SpacingStrs where
  top : String
  right : String
  bottom : String
  left : String

/-- The captured computed-style snapshot of one element (`getComputedLayout`
in visual-scraper.js), restricted to the properties the converter reads.
Geometry is numeric (from `getBoundingClientRect`), style values are strings. -/
structure VLayout where
  x : ℚ := 0
  y : ℚ := 0
  width : ℚ := 0
  height : ℚ := 0
  display : String := ""
  position : String := ""
  backgroundColor : String := ""
  backgroundImage : String := ""
  backgroundSize : String := ""
  backgroundPosition : String := ""
  padding : Option SpacingStrs := none
  margin : Option SpacingStrs := none
  border : String := ""
  borderColor : String := ""
  borderRadius : String := ""
  boxShadow : String := ""
  color : String := ""
  fontFamily : String := ""
  fontSize : String := ""
  fontWeight : String := ""
  lineHeight : String := ""
  textAlign : String := ""

/-- The captured attribute map of one element, restricted to the attributes
the converter reads (`ty` models the JS `type` attribute). -/
structure VAttrs where
  src : Option String := none
  href : Option String := none
  alt : Option String := none
  ty : Option String := none
  placeholder : Option String := none
  value : Option String := none

/-- A captured element tree node (`mapElement` in visual-scraper.js),
restricted to the fields the converter reads. -/
inductive VElement where
  | mk (tagName className textContent innerHTML : String)
      (outerHTML : Option String) (attributes : Option VAttrs)
      (layout : Option VLayout) (children : List VElement)

/-- The captured tag name. -/
def VElement.tagName : VElement → String
  | .mk t _ _ _ _ _ _ _ => t

/-- The captured class attribute. -/
def VElement.className : VElement → String
  | .mk _ c _ _ _ _ _ _ => c

/-- The captured direct text content. -/
def VElement.textContent : VElement → String
  | .mk _ _ t _ _ _ _ _ => t

/-- The captured inner markup (non-empty for content-bearing tags only). -/
def VElement.innerHTML : VElement → String
  | .mk _ _ _ i _ _ _ _ => i

/-- The captured outer markup. -/
def VElement.outerHTML : VElement → Option String
  | .mk _ _ _ _ o _ _ _ => o

/-- The captured attribute map. -/
def VElement.attributes : VElement → Option VAttrs
  | .mk _ _ _ _ _ a _ _ => a

/-- The captured style snapshot. -/
def VElement.layout : VElement → Option VLayout
  | .mk _ _ _ _ _ _ l _ => l

/-- The captured ordered children. -/
def VElement.children : VElement → List VElement
  | .mk _ _ _ _ _ _ _ cs => cs

/-- The `convertSpacing` normalization (visual-elementor-converter.js lines
896-907): four `parseInt || 0` sides plus a pixel unit; a missing spacing
object yields the zero spacing without the `isLinked` flag, exactly as the
source's early return does. -/
def convertSpacing (sp : Option SpacingStrs) : Json :=
  match sp with
  | none =>
    .obj [("top", .num 0), ("right", .num 0), ("bottom", .num 0), ("left", .num 0),
      ("unit", .str "px")]
  | some s =>
    .obj [("top", .num (jsParseIntD s.top)), ("right", .num (jsParseIntD s.right)),
      ("bottom", .num (jsParseIntD s.bottom)), ("left", .num (jsParseIntD s.left)),
      ("unit", .str "px"), ("isLinked", .bool false)]

/-- Scan forward to the character list following the first `url(`. -/
def dropToUrlOpen : List Char → Option (List Char)
  | [] => none
  | c :: rest =>
    if isPrefixChars ['u', 'r', 'l', '('] (c :: rest) then some ((c :: rest).drop 4)
    else dropToUrlOpen rest

/-- The `extractImageUrl` pattern match (visual-elementor-converter.js lines
909-914), modelling the regex `url\(['"]?([^'"]+)['"]?\)` for well-formed
background values (one `url(...)` with no stray quotes or parentheses inside
the URL): optional opening quote, then the URL up to a quote or closing
parenthesis. -/
def extractImageUrl (backgroundImage : String) : Option String :=
  if backgroundImage = "" ∨ backgroundImage = "none" then none
  else
    match dropToUrlOpen backgroundImage.toList with
    | none => none
    | some cs =>
      let inner :=
        match cs with
        | c :: rest => if c = '\'' ∨ c = '"' then rest else cs
        | [] => []
      let body := inner.takeWhile (fun c => ¬ (c = '\'' ∨ c = '"' ∨ c = ')'))
      if body.isEmpty then none else some (String.mk body)

/-- A JS word character, for the `\b` boundaries of the button-class regex. -/
def isWordChar (c : Char) : Bool := c.isAlphanum || c = '_'

/-- Match `pat` at the head of `hay` with a word boundary after it. -/
def wordMatchAt (pat hay : List Char) : Bool :=
  isPrefixChars pat hay &&
    (match hay.drop pat.length with
     | [] => true
     | c :: _ => !isWordChar c)

/-- Search for `pat` with word boundaries on both sides; `prev` is the
character before the current position. -/
def wordBoundarySearch (pat : List Char) (prev : Option Char) : List Char → Bool
  | [] => false
  | c :: rest =>
    ((match prev with | none => true | some p => !isWordChar p) &&
      wordMatchAt pat (c :: rest)) ||
    wordBoundarySearch pat (some c) rest

/-- The `/\b(btn|button|cta|call-to-action)\b/i` class-name test of
`isButtonLike`. -/
def matchesButtonWord (className : String) : Bool :=
  let lower := (toLowerStr className).toList
  ["btn", "button", "cta", "call-to-action"].any
    (fun w => wordBoundarySearch w.toList none lower)

/-- The `isButtonLike` link classifier (visual-elementor-converter.js lines
864-883): button-ish class names, or button-like styling (background with
padding, a border, or a corner radius). -/
def isButtonLike (e : VElement) : Bool :=
  if strTruthy e.className && matchesButtonWord e.className then true
  else
    match e.layout with
    | some l =>
      let hasBackground := strTruthy l.backgroundColor &&
        l.backgroundColor != "rgba(0, 0, 0, 0)"
      let hasPadding :=
        match l.padding with
        | some p => decide (jsParseIntD p.top > 5) || decide (jsParseIntD p.left > 10)
        | none => false
      let hasBorder := strTruthy l.border && l.border != "none"
      let hasRadius := strTruthy l.borderRadius && decide (jsParseIntD l.borderRadius > 0)
      (hasBackground && hasPadding) || hasBorder || hasRadius
    | none => false

/-- The `reconstructListHTML` list rebuild (visual-elementor-converter.js
lines 885-894); captured elements always carry a children array, so the
source's `!element.children` guard cannot fire. -/
def reconstructListHTML (e : VElement) : String :=
  let items := concatStrs (e.children.map (fun c => "<li>" ++ c.textContent ++ "</li>"))
  "<" ++ e.tagName ++ ">" ++ items ++ "</" ++ e.tagName ++ ">"

/-- A numeric JSON value from a JS number that may be `NaN` (bare `parseInt`
and `parseFloat` without guards); `NaN` serializes as `null`. -/
def jnumInt (o : Option Int) : Json :=
  match o with
  | some n => .num n
  | none => .null

/-- As `jnumInt`, for fractional values. -/
def jnumRat (o : Option ℚ) : Json :=
  match o with
  | some q => .num q
  | none => .null

/-- The four-side `border_radius` object built from a single computed value. -/
def borderRadiusObj (br : String) : Json :=
  .obj [("top", .num (jsParseIntD br)), ("right", .num (jsParseIntD br)),
    ("bottom", .num (jsParseIntD br)), ("left", .num (jsParseIntD br)),
    ("unit", .str "px")]

/-- The shared widget base settings of `createWidget`
(visual-elementor-converter.js lines 581-619): color, background, typography,
alignment, spacing, border radius and shadow, each gated on the captured
style value exactly as in the source.  The random `_element_id` is omitted per
the modelling conventions. -/
def baseWidgetSettings (layout : Option VLayout) : List (String × Json) :=
  match layout with
  | none => []
  | some l =>
    (if strTruthy l.color then [("color", Json.str l.color)] else []) ++
    (if strTruthy l.backgroundColor ∧ l.backgroundColor ≠ "rgba(0, 0, 0, 0)" then
      [("background_background", Json.str "classic"),
       ("background_color", Json.str l.backgroundColor)] else []) ++
    (if strTruthy l.fontFamily then [("typography_typography", Json.str "custom")] else []) ++
    (if strTruthy l.fontFamily then [("typography_font_family", Json.str l.fontFamily)] else []) ++
    (if strTruthy l.fontSize then
      [("typography_font_size",
        Json.obj [("size", jnumInt (jsParseInt l.fontSize)), ("unit", Json.str "px")])]
     else []) ++
    (if strTruthy l.fontWeight then [("typography_font_weight", Json.str l.fontWeight)] else []) ++
    (if strTruthy l.lineHeight then
      [("typography_line_height",
        Json.obj [("size", jnumRat (jsParseFloat l.lineHeight)), ("unit", Json.str "em")])]
     else []) ++
    (if strTruthy l.textAlign then [("align", Json.str l.textAlign)] else []) ++
    [("padding", convertSpacing l.padding), ("margin", convertSpacing l.margin)] ++
    (if strTruthy l.borderRadius ∧ l.borderRadius ≠ "0px" then
      [("border_radius", borderRadiusObj l.borderRadius)] else []) ++
    (if strTruthy l.boxShadow ∧ l.boxShadow ≠ "none" then
      [("box_shadow_box_shadow", Json.str l.boxShadow)] else [])

/-- JS `a || b || c` fallback chain over an optional first value and two
strings. -/
def jsOr3 (a : Option String) (b c : String) : String :=
  jsOrS a (if b = "" then c else b)

/-- The tag-driven widget dispatch `createWidget`
(visual-elementor-converter.js lines 577-862).  Returns `none` where the
source returns `null` (content-free `p`/`span`/`div`, and unknown tags with no
content that are not structurally significant). -/
def createWidget (e : VElement) : Option ENode :=
  let base := baseWidgetSettings e.layout
  let attrs := e.attributes
  let widget := fun (wt : String) (fields : List (String × Json)) =>
    ENode.mk "widget" (some wt) (.obj (base ++ fields)) [] none
  if e.tagName ∈ ["h1", "h2", "h3", "h4", "h5", "h6"] then
    some (widget "heading"
      [("title", .str (jsOrS (some e.textContent) "Heading")),
       ("header_size", .str e.tagName), ("size", .str "default")])
  else if e.tagName = "img" then
    some (widget "image"
      [("image",
        match attrs.bind (·.src) with
        | some s => if s = "" then .obj [] else .obj [("url", .str s)]
        | none => .obj []),
       ("image_size", .str "full"),
       ("caption", .str (jsOrS (attrs.bind (·.alt)) "")),
       ("align", .str "center")])
  else if e.tagName = "a" then
    if isButtonLike e then
      some (widget "button"
        [("text", .str (jsOrS (some e.textContent) "Click here")),
         ("link",
          match attrs.bind (·.href) with
          | some h => if h = "" then .obj [] else
              .obj [("url", .str h), ("is_external", .bool true)]
          | none => .obj []),
         ("size", .str "md"), ("button_type", .str "success")])
    else
      some (widget "text-editor"
        [("editor", .str ("<a href=\"" ++ jsOrS (attrs.bind (·.href)) "#" ++ "\">" ++
          jsOrS (some e.textContent) "Link" ++ "</a>"))])
  else if e.tagName ∈ ["p", "span", "div"] then
    let innerTrimmed := jsTrim e.innerHTML ≠ ""
    let content := if innerTrimmed then e.innerHTML else e.textContent
    if content ≠ "" ∧ jsTrim content ≠ "" then
      some (widget "text-editor"
        [("editor", .str (if innerTrimmed then e.innerHTML
          else "<" ++ e.tagName ++ ">" ++ e.textContent ++ "</" ++ e.tagName ++ ">"))])
    else none
  else if e.tagName = "form" then
    some (widget "html"
      [("html", .str (jsOr3 e.outerHTML e.innerHTML
          ("<form>" ++ e.textContent ++ "</form>"))),
       ("title", .str "Form Element")])
  else if e.tagName ∈ ["input", "textarea", "select"] then
    let inputType := jsOrS (attrs.bind (·.ty)) "text"
    let placeholder := jsOrS (attrs.bind (·.placeholder)) ""
    let value := jsOrS (attrs.bind (·.value)) ""
    if inputType ∈ ["submit", "button"] then
      some (widget "button"
        [("text", .str (jsOrS (some value) (jsOrS (some e.textContent) "Submit"))),
         ("size", .str "md"), ("button_type", .str "primary")])
    else
      some (widget "html"
        [("html", .str (jsOrS e.outerHTML
          ("<" ++ e.tagName ++ " type=\"" ++ inputType ++ "\" placeholder=\"" ++
            placeholder ++ "\" value=\"" ++ value ++ "\" />"))),
         ("title", .str (toUpperStr e.tagName ++ " Field"))])
  else if e.tagName ∈ ["video", "iframe"] then
    let videoSrc := jsOrS (attrs.bind (·.src)) ""
    if strIncludes videoSrc "youtube" || strIncludes videoSrc "vimeo" then
      some (widget "video"
        [("video_type", .str (if strIncludes videoSrc "youtube" then "youtube" else "vimeo")),
         ("youtube_url", .str (if strIncludes videoSrc "youtube" then videoSrc else "")),
         ("vimeo_url", .str (if strIncludes videoSrc "vimeo" then videoSrc else "")),
         ("aspect_ratio", .str "169")])
    else
      some (widget "html"
        [("html", .str (jsOr3 e.outerHTML e.innerHTML
          ("<" ++ e.tagName ++ " src=\"" ++ videoSrc ++ "\"></" ++ e.tagName ++ ">"))),
         ("title", .str "Video/Media Element")])
  else if e.tagName ∈ ["ul", "ol"] then
    some (widget "text-editor" [("editor", .str (reconstructListHTML e))])
  else if e.tagName = "button" then
    some (widget "button"
      [("text", .str (jsOrS (some e.textContent) "Button")),
       ("size", .str "md"), ("button_type", .str "primary")])
  else if e.tagName ∈ ["table", "tbody", "thead", "tr", "td", "th"] then
    some (widget "html"
      [("html", .str (jsOr3 e.outerHTML e.innerHTML
          ("<" ++ e.tagName ++ ">" ++ e.textContent ++ "</" ++ e.tagName ++ ">"))),
       ("title", .str "Table Element")])
  else if e.tagName = "svg" then
    some (widget "html"
      [("html", .str (jsOr3 e.outerHTML e.innerHTML
          ("<" ++ e.tagName ++ ">" ++ e.textContent ++ "</" ++ e.tagName ++ ">"))),
       ("title", .str "SVG Icon")])
  else if e.tagName ∈ ["nav", "menu"] then
    some (widget "nav-menu"
      [("layout", .str "horizontal"), ("pointer", .str "underline")])
  else
    let hasContent := jsTrim e.innerHTML ≠ "" ∨ jsTrim e.textContent ≠ ""
    let isStructural := e.tagName ∈ ["section", "header", "footer", "article", "aside", "main"]
    if hasContent ∨ isStructural then
      some (widget "html"
        [("html", .str (jsOr3 e.outerHTML e.innerHTML
            ("<" ++ e.tagName ++ ">" ++ e.textContent ++ "</" ++ e.tagName ++ ">"))),
         ("title", .str (toUpperStr e.tagName ++ " Element"))])
    else none

/-- The `createSection` settings builder (visual-elementor-converter.js lines
487-530): boxed width, default/min height, background color and image, and
spacing, as captured.  The random `id` is omitted. -/
def createSection (e : VElement) : ENode :=
  match e.layout with
  | none =>
    .mk "section" none
      (.obj [("content_width", .str "boxed"), ("height", .str "default"),
        ("structure", .str "10")]) [] (some false)
  | some l =>
    let colorCond := strTruthy l.backgroundColor ∧ l.backgroundColor ≠ "rgba(0, 0, 0, 0)"
    let imgCond := strTruthy l.backgroundImage ∧ l.backgroundImage ≠ "none"
    let heightCond := l.height ≠ 0 ∧ jsTruncNum l.height > 100
    let settings :=
      [("content_width", Json.str "boxed"),
       ("height", Json.str (if heightCond then "min-height" else "default")),
       ("structure", Json.str "10")] ++
      (if colorCond ∨ imgCond then [("background_background", Json.str "classic")] else []) ++
      (if colorCond then [("background_color", Json.str l.backgroundColor)] else []) ++
      (if imgCond then
        match extractImageUrl l.backgroundImage with
        | some url =>
          [("background_image", Json.obj [("url", Json.str url)]),
           ("background_size", Json.str (jsOrS (some l.backgroundSize) "cover")),
           ("background_position", Json.str (jsOrS (some l.backgroundPosition) "center center"))]
        | none => []
       else []) ++
      [("padding", convertSpacing l.padding), ("margin", convertSpacing l.margin)] ++
      (if heightCond then
        [("custom_height", Json.obj [("size", Json.num (jsTruncNum l.height)),
          ("unit", Json.str "px")])]
       else [])
    .mk "section" none (.obj settings) [] (some false)

/-- The `createColumn` settings builder (visual-elementor-converter.js lines
532-575); the argument mirrors `element || {}` — `createColumnsFromChildren`
calls it with a children-only object. -/
def createColumn (eo : Option VElement) : ENode :=
  let layout := eo.bind (·.layout)
  match layout with
  | none =>
    .mk "column" none (.obj [("_column_size", .num 100), ("_inline_size", .null)])
      [] (some false)
  | some l =>
    let settings :=
      [("_column_size", Json.num 100), ("_inline_size", Json.null)] ++
      (if strTruthy l.backgroundColor ∧ l.backgroundColor ≠ "rgba(0, 0, 0, 0)" then
        [("background_background", Json.str "classic"),
         ("background_color", Json.str l.backgroundColor)] else []) ++
      [("padding", convertSpacing l.padding), ("margin", convertSpacing l.margin)] ++
      (if strTruthy l.border ∧ l.border ≠ "none" then
        [("border_border", Json.str "solid"),
         ("border_width", Json.obj [("top", .num 1), ("right", .num 1),
           ("bottom", .num 1), ("left", .num 1), ("unit", .str "px")]),
         ("border_color", Json.str (jsOrS (some l.borderColor) "#000000"))] else []) ++
      (if strTruthy l.borderRadius ∧ l.borderRadius ≠ "0px" then
        [("border_radius", borderRadiusObj l.borderRadius)] else [])
    .mk "column" none (.obj settings) [] (some false)

/-- The `createDefaultColumn` fallback column (visual-elementor-converter.js
lines 1012-1022). -/
def createDefaultColumn : ENode :=
  .mk "column" none (.obj [("_column_size", .num 100), ("_inline_size", .null)]) [] none

/-- The `createDefaultSection` fallback section with its default column
(visual-elementor-converter.js lines 1001-1010). -/
def createDefaultSection : ENode :=
  .mk "section" none (.obj [("content_width", .str "boxed")]) [createDefaultColumn] none

/-- The layout analysis of a section's children (`analyzeChildrenLayout`,
visual-elementor-converter.js lines 365-392). -/
structure LayoutAnalysis where
  totalWidth : ℚ
  averageWidth : ℚ
  hasFlexLayout : Bool
  hasGridLayout : Bool
  positionBreaks : List Nat
  contentTypes : List String

/-- Compute the layout analysis of a children run. -/
def analyzeChildrenLayout (children : List VElement) : LayoutAnalysis :=
  let totalWidth := children.foldl (fun acc c => acc + ((c.layout.map (·.width)).getD 0)) 0
  let hasFlex := children.any (fun c =>
    (c.layout.map (fun l => decide (l.display = "flex"))).getD false)
  let hasGrid := children.any (fun c =>
    (c.layout.map (fun l => decide (l.display = "grid"))).getD false)
  let positionBreaks := (children.enum.filter (fun p =>
    (p.2.layout.map (fun l =>
      decide (l.position = "absolute" ∨ l.position = "fixed"))).getD false)).map (·.1)
  let contentTypes := children.foldl
    (fun acc c => if c.tagName ∈ acc then acc else acc ++ [c.tagName]) []
  { totalWidth := totalWidth
    averageWidth := if children.length > 0 then totalWidth / (children.length : ℚ) else 0
    hasFlexLayout := hasFlex
    hasGridLayout := hasGrid
    positionBreaks := positionBreaks
    contentTypes := contentTypes }

/-- The column-break heuristic `shouldStartNewColumn`
(visual-elementor-converter.js lines 394-428). -/
def shouldStartNewColumn (child : VElement) (currentChildren : List VElement)
    (analysis : LayoutAnalysis) : Bool :=
  if currentChildren.isEmpty then false
  else if (child.layout.map (fun l =>
      decide (l.position = "absolute" ∨ l.position = "fixed"))).getD false then true
  else if child.tagName ∈ ["section", "header", "footer", "main", "article", "aside"] then
    true
  else
    match child.layout with
    | some l =>
      if l.width > analysis.averageWidth * 1.5 ∧ currentChildren.length > 0 then true
      else if analysis.hasFlexLayout || analysis.hasGridLayout then
        match currentChildren.getLast? with
        | some prev =>
          match prev.layout with
          | some pl => decide (l.y > pl.y + pl.height)
          | none => false
        | none => false
      else false
    | none => false

/-- The per-column content weight of `calculateIntelligentColumnWidths`
(visual-elementor-converter.js lines 439-459): base 1, +0.2 per widget, +0.5
for image/video widgets, +0.3 for form-like html widgets. -/
def contentWeight (c : ENode) : ℚ :=
  let w := 1 + (c.elements.length : ℚ) * 0.2
  let hasMedia := c.elements.any (fun wd =>
    wd.widgetType == some "image" || wd.widgetType == some "video")
  let w := if hasMedia then w + 0.5 else w
  let hasForm := c.elements.any (fun wd =>
    wd.widgetType == some "html" &&
      ((wd.settings.getStr "html").map
        (fun h => strIncludes h "<form" || strIncludes h "<input")).getD false)
  if hasForm then w + 0.3 else w

/-- The width-assignment loop of `calculateIntelligentColumnWidths`
(visual-elementor-converter.js lines 463-484) over the column weight list:
every column except the last gets its rounded proportional share clamped to
[15, 70]; the last gets `100 - usedWidth`, unclamped. -/
def widthsGo : List ℚ → ℚ → ℤ → List ℤ
  | [], _, _ => []
  | [_], _, used => [100 - used]
  | w :: rest, total, used =>
    let wi := max 15 (min 70 (jsRound (w / total * 100)))
    wi :: widthsGo rest total (used + wi)

/-- The `_column_size` values `calculateIntelligentColumnWidths` assigns to a
column run: 100 for a single column, else the proportional widths. -/
def intelligentWidths (cols : List ENode) : List ℤ :=
  match cols with
  | [] => []
  | [_] => [100]
  | _ =>
    let weights := cols.map contentWeight
    widthsGo weights weights.sum 0

/-- Write a computed width into a column's settings
(`column.settings._column_size = width; column.settings._inline_size = null`). -/
def setColumnWidth (c : ENode) (w : ℤ) : ENode :=
  c.setSettings ((c.settings.setField "_column_size" (.num w)).setField "_inline_size" .null)

/-- The `calculateIntelligentColumnWidths` entry point
(visual-elementor-converter.js lines 430-485); the layout analysis is passed
but unused by the width calculation, as in the source. -/
def calculateIntelligentColumnWidths (cols : List ENode) (_analysis : LayoutAnalysis) :
    List ENode :=
  List.zipWith setColumnWidth cols (intelligentWidths cols)

/-- The column-grouping pass `createColumnsFromChildren`
(visual-elementor-converter.js lines 311-363): consecutive children grouped
into columns at break points, each group materialized only if it yields at
least one widget, a default column if nothing survives, then width
allocation. -/
def createColumnsFromChildren (children : List VElement) : List ENode :=
  if children.isEmpty then [createDefaultColumn]
  else
    let analysis := analyzeChildrenLayout children
    let finalize := fun (group : List VElement) =>
      let column := createColumn (some (VElement.mk "" "" "" "" none none none group))
      let widgets := group.filterMap createWidget
      if widgets.isEmpty then [] else [column.setElements widgets]
    let step := fun (acc : List ENode × List VElement) (child : VElement) =>
      if shouldStartNewColumn child acc.2 analysis ∧ ¬ acc.2.isEmpty then
        (acc.1 ++ finalize acc.2, [child])
      else (acc.1, acc.2 ++ [child])
    let res := children.foldl step ([], [])
    let columns := res.1 ++ (if res.2.isEmpty then [] else finalize res.2)
    if columns.isEmpty then [createDefaultColumn]
    else calculateIntelligentColumnWidths columns analysis

/-- The parent-type-aware classifier `determineElementorType`
(visual-elementor-converter.js lines 252-309). -/
def determineElementorType (e : VElement) (parentType : String) : String :=
  let hasMultipleChildren := e.children.length > 2
  let bodySection :=
    parentType = "body" ∧
      (e.tagName ∈ ["section", "header", "footer", "main", "article", "nav", "aside"] ∨
       (e.layout.map (fun l => decide (l.height > 200 ∧ l.width > 300))).getD false = true ∨
       hasMultipleChildren)
  let bodyDivSection :=
    parentType = "body" ∧ e.tagName = "div" ∧
      ((e.layout.map (fun l => decide (l.display = "flex" ∨ l.display = "grid"))).getD false
          = true ∨
       e.children.any (fun c => (c.layout.map (fun l => decide (l.width > 100))).getD false)
          = true ∨
       hasMultipleChildren)
  if bodySection ∨ bodyDivSection then "section"
  else if parentType = "section" ∧
      (e.children.length > 0 ∨ jsTrim e.textContent ≠ "" ∨ jsTrim e.innerHTML ≠ "" ∨
       e.tagName ∈ ["div", "article", "aside", "section"]) then "column"
  else if parentType = "column" then "widget"
  else if e.children.isEmpty then "widget"
  else if parentType = "body" then
    if e.textContent.length > 50 ∨ e.children.length > 1 then "section" else "widget"
  else if parentType = "section" then "column"
  else "widget"

/-- The recursive walk `processElement` of `buildElementorFromVisual`
(visual-elementor-converter.js lines 169-212), with the source's depth guard.
The JS `null` result is the empty list; the source's default branch (which
would return a child-result array) and its `column` branch are retained even
though `determineElementorType` never routes the walk's `body`/`column`
parents to them. -/
def processElement (e : VElement) (parentType : String) (depth : Nat) : List ENode :=
  if _h : depth > 30 then []
  else
    match determineElementorType e parentType with
    | "section" =>
      let s := createSection e
      let s := if e.children.length > 0 then
        s.setElements (createColumnsFromChildren e.children) else s
      [s]
    | "column" =>
      let c := createColumn (some e)
      let c := if e.children.length > 0 then
        c.setElements ((e.children.map
          (fun ch => processElement ch "column" (depth + 1))).flatten) else c
      [c]
    | "widget" => (createWidget e).toList
    | _ =>
      if e.children.length > 0 then
        (e.children.map (fun ch => processElement ch parentType (depth + 1))).flatten
      else []
termination_by 31 - depth
decreasing_by all_goals omega

/-- The post-walk fix-up of `buildElementorFromVisual`
(visual-elementor-converter.js lines 244-249): a section that came out of the
walk with no columns receives a default column. -/
def ensureSectionColumns (n : ENode) : ENode :=
  if n.elType = "section" ∧ n.elements.isEmpty then n.setElements [createDefaultColumn]
  else n

/-- The raw-structure path of `buildElementorFromVisual`
(visual-elementor-converter.js lines 161-249) applied to a captured element
tree: walk the children (or the root itself) as `body`-parented nodes,
synthesize a default section when the walk yields nothing, then ensure every
section has a column. -/
def buildFromRawStructure (actual : VElement) : List ENode :=
  let sections :=
    if actual.children.length > 0 then
      (actual.children.map (fun c => processElement c "body" 0)).flatten
    else if strTruthy actual.tagName then processElement actual "body" 0
    else []
  let sections := if sections.isEmpty then [createDefaultSection] else sections
  sections.map ensureSectionColumns

/-- Captured page metadata (`extractPageInfo`), restricted to the fields the
converter reads. -/
structure PageInfo where
  title : Option String := none
  url : Option String := none

/-- The harvested asset bundle (`extractVisualAssets`), restricted to the
fields the converter and verifier read. -/
structure Assets where
  images : List Json := []
  fonts : List String := []
  colors : List String := []
  gradients : List String := []

/-- One breakpoint's capture (`captureLayoutAtBreakpoint` result), restricted
to the fields downstream code reads; `struct` models the `structure` field. -/
structure BPLayout where
  struct : Option Json := none
  completeHTML : Option String := none
  styles : Option String := none

/-- The three per-breakpoint captures (`responsiveLayouts`). -/
structure BPmap where
  desktop : Option BPLayout := none
  tablet : Option BPLayout := none
  mobile : Option BPLayout := none

/-- The `visualStructure` object built by `buildVisualStructureMap`
(visual-scraper.js lines 943-999): a pre-built Elementor tree (possibly
absent), the raw captured tree (`struct` models the `structure` field), and
the raw markup/style fallbacks. -/
structure VS where
  elementorStructure : Option ENode := none
  struct : Option Json := none
  completeHTML : Option String := none
  styles : Option String := none

/-- The scan result of `scrapeVisualLayout` (visual-scraper.js lines 501-508),
which the route hands to both the verifier and the converter. -/
structure VisualData where
  url : Option String := none
  pageInfo : Option PageInfo := none
  visualStructure : Option VS := none
  responsiveLayouts : Option BPmap := none
  assets : Option Assets := none
  timestamp : Option String := none

/-- The recursive `findElementorStructure` search of `buildElementorFromVisual`
(visual-elementor-converter.js lines 108-135), specialized to the scan-result
shape it is given: the search visits the result's fields in insertion order
and the only object carrying an `elementorStructure` key (or an `elements`
array) is `visualStructure`, so the search returns
`visualStructure.elementorStructure` when that is non-null and nothing
otherwise. -/
def findElementorStructure (vd : VisualData) : Option ENode :=
  vd.visualStructure.bind (·.elementorStructure)

/-- The raw-structure path as reached through `convertVisualToElementor`: the
source resolves `actualStructure = visualStructure.structure ||
visualStructure` against the scan result, which has neither a `structure` nor
`children`/`tagName` fields, so the walk collects nothing and the default
section is synthesized. -/
def rawBuildFromScanRoot (_vd : VisualData) : List ENode :=
  let sections : List ENode := []
  let sections := if sections.isEmpty then [createDefaultSection] else sections
  sections.map ensureSectionColumns

/-- The `buildElementorFromVisual` entry (visual-elementor-converter.js lines
100-250): a found pre-built structure with a non-empty `elements` array is
returned verbatim (skipping the fix-up map); otherwise the raw path runs.
A found widget node (whose JS `elements` is undefined) and a found structure
with an empty array both fall through to the raw path, exactly as the
source's `elementorStructure.elements` truthiness plus `length > 0` checks
do. -/
def buildElementorFromVisual (vd : VisualData) : List ENode :=
  match findElementorStructure vd with
  | some es => if es.elements.length > 0 then es.elements else rawBuildFromScanRoot vd
  | none => rawBuildFromScanRoot vd

/-- Helper: the width loop emits one width per weight. -/
theorem widthsGo_length : ∀ (ws : List ℚ) (total : ℚ) (used : ℤ),
    (widthsGo ws total used).length = ws.length
  | [], _, _ => rfl
  | [_], _, _ => rfl
  | _ :: w2 :: rest, total, used => by
    rw [widthsGo]
    · simp only [List.length_cons]
      rw [widthsGo_length (w2 :: rest) total]
      simp
    · simp

/-- Helper: the widths of a non-empty run always total `100 - used`. -/
theorem widthsGo_sum : ∀ (ws : List ℚ) (total : ℚ) (used : ℤ), ws ≠ [] →
    (widthsGo ws total used).sum = 100 - used
  | [], _, _, h => absurd rfl h
  | [_], _, used, _ => by simp [widthsGo]
  | w :: w2 :: rest, total, used, _ => by
    rw [widthsGo]
    · rw [List.sum_cons, widthsGo_sum (w2 :: rest) total _ (by simp)]
      ring
    · simp

/-- Helper: every width except the last is clamped into [15, 70]. -/
theorem widthsGo_dropLast : ∀ (ws : List ℚ) (total : ℚ) (used : ℤ),
    ∀ w ∈ (widthsGo ws total used).dropLast, 15 ≤ w ∧ w ≤ 70
  | [], _, _ => by simp [widthsGo]
  | [_], _, used => by simp [widthsGo]
  | w1 :: w2 :: rest, total, used => by
    intro w hw
    rw [widthsGo] at hw
    case x_3 => simp
    have hne : widthsGo (w2 :: rest) total
        (used + max 15 (min 70 (jsRound (w1 / total * 100)))) ≠ [] := by
      intro hnil
      have := widthsGo_length (w2 :: rest) total
        (used + max 15 (min 70 (jsRound (w1 / total * 100))))
      rw [hnil] at this
      simp at this
    rw [List.dropLast_cons_of_ne_nil hne] at hw
    rcases List.mem_cons.mp hw with h | h
    · subst h
      constructor
      · exact le_max_left _ _
      · exact max_le (by norm_num) (min_le_left _ _)
    · exact widthsGo_dropLast (w2 :: rest) total _ w h

/-- C1 (amended): for a run of two or more columns the assigned
`_column_size` values sum to exactly 100, and every column except the last
has a width in [15, 70]; the last column absorbs the rounding remainder
unclamped and can fall outside [15, 70] (see the counterexample). -/
theorem c1_column_widths_amended (cols : List ENode) (h : 2 ≤ cols.length) :
    (intelligentWidths cols).sum = 100 ∧
    ∀ w ∈ (intelligentWidths cols).dropLast, 15 ≤ w ∧ w ≤ 70 := by
  rcases cols with _ | ⟨c1, _ | ⟨c2, rest⟩⟩
  · simp at h
  · simp at h
  · have hinw : intelligentWidths (c1 :: c2 :: rest) =
        widthsGo ((c1 :: c2 :: rest).map contentWeight)
          ((c1 :: c2 :: rest).map contentWeight).sum 0 := rfl
    rw [hinw]
    constructor
    · rw [widthsGo_sum]
      · ring
      · simp
    · exact widthsGo_dropLast _ _ _

/-- Witness for the amended C1 theorem: two plain columns split 50/50. -/
theorem c1_column_widths_witness :
    2 ≤ [createDefaultColumn, createDefaultColumn].length ∧
    (intelligentWidths [createDefaultColumn, createDefaultColumn]).sum = 100 ∧
    ∀ w ∈ (intelligentWidths [createDefaultColumn, createDefaultColumn]).dropLast,
      15 ≤ w ∧ w ≤ 70 :=
  ⟨by decide, c1_column_widths_amended _ (by decide)⟩

/-- A text widget as `createWidget` emits for a paragraph. -/
def sampleTextWidget : ENode :=
  .mk "widget" (some "text-editor") (.obj [("editor", .str "<p>x</p>")]) [] none

/-- A column holding one text widget (content weight 1.2). -/
def narrowColumn : ENode :=
  .mk "column" none (.obj [("_column_size", .num 100), ("_inline_size", .null)])
    [sampleTextWidget] none

/-- A column holding eighteen text widgets (content weight 4.6). -/
def wideColumn : ENode :=
  .mk "column" none (.obj [("_column_size", .num 100), ("_inline_size", .null)])
    (List.replicate 18 sampleTextWidget) none

/-- Helper: the weight of the one-text-widget column is 1.2. -/
theorem contentWeight_narrow : contentWeight narrowColumn = 6 / 5 := by
  rw [contentWeight]
  norm_num [narrowColumn, sampleTextWidget, ENode.elements, ENode.widgetType,
    ENode.settings, Json.getStr, Json.getField, List.lookup, strIncludes,
    containsSubChars, isPrefixChars]
  simp

/-- Helper: the weight of the eighteen-text-widget column is 4.6. -/
theorem contentWeight_wide : contentWeight wideColumn = 23 / 5 := by
  rw [contentWeight]
  norm_num [wideColumn, sampleTextWidget, ENode.elements, ENode.widgetType,
    ENode.settings, Json.getStr, Json.getField, List.lookup, strIncludes,
    containsSubChars, isPrefixChars, List.any_replicate]
  simp

/-- Helper: the computed widths for the 1.2 / 4.6 pair are 21 and 79. -/
theorem intelligentWidths_narrow_wide :
    intelligentWidths [narrowColumn, wideColumn] = [21, 79] := by
  have h1 : intelligentWidths [narrowColumn, wideColumn] =
      widthsGo [contentWeight narrowColumn, contentWeight wideColumn]
        ([contentWeight narrowColumn, contentWeight wideColumn]).sum 0 := rfl
  rw [h1, contentWeight_narrow, contentWeight_wide]
  have hsum : ([(6 : ℚ) / 5, 23 / 5]).sum = 29 / 5 := by norm_num
  rw [hsum]
  have hjr : jsRound ((6 : ℚ) / 5 / (29 / 5) * 100) = 21 :=
    jsRound_eq_of _ 21 (by norm_num) (by norm_num)
  rw [widthsGo]
  · rw [hjr, widthsGo]
    norm_num
  · simp

/-- C1 counterexample: with two sibling columns of weights 1.2 and 4.6 the
allocator assigns widths 21 and 79 — they sum to 100, but the last column's
`_column_size` is 79, outside [15, 70], because the remainder-absorbing last
width is never clamped. -/
theorem c1_counterexample :
    intelligentWidths [narrowColumn, wideColumn] = [21, 79] ∧
    ((calculateIntelligentColumnWidths [narrowColumn, wideColumn]
        (analyzeChildrenLayout [])).map
      (fun c => c.settings.getNumD "_column_size")) = [21, 79] ∧
    ¬ ((79 : ℤ) ≤ 70) := by
  refine ⟨intelligentWidths_narrow_wide, ?_, by decide⟩
  rw [calculateIntelligentColumnWidths, intelligentWidths_narrow_wide]
  simp [setColumnWidth, narrowColumn, wideColumn, ENode.setSettings, ENode.settings,
    Json.setField, setFieldList, Json.getNumD, Json.getField, List.lookup]

/-- Helper: replacing the children keeps the node kind. -/
theorem elType_setElements (n : ENode) (es : List ENode) :
    (n.setElements es).elType = n.elType := by
  cases n
  rfl

/-- Helper: replacing the children stores them. -/
theorem elements_setElements (n : ENode) (es : List ENode) :
    (n.setElements es).elements = es := by
  cases n
  rfl

/-- Helper: after the fix-up map, every section node has at least one child. -/
theorem all_ensureSectionColumns (ns : List ENode) :
    ((ns.map ensureSectionColumns).all
      (fun n => n.elType != "section" || !n.elements.isEmpty)) = true := by
  rw [List.all_map]
  apply List.all_eq_true.mpr
  intro n _
  by_cases hc : n.elType = "section" ∧ n.elements.isEmpty = true
  · simp only [Function.comp_apply, ensureSectionColumns, if_pos hc,
      elType_setElements, elements_setElements]
    simp
  · simp only [Function.comp_apply, ensureSectionColumns, if_neg hc]
    rcases not_and_or.mp hc with h | h
    · simp [h]
    · simp [h]

/-- C2 (amended): the emitted section list is never empty on any path of
`buildElementorFromVisual` (a verbatim pre-built list is only taken when
non-empty; the raw path synthesizes a default section), and on the raw
classification-walk path every emitted node of kind `section` carries at
least one column — the fix-up map guarantees it.  The guarantee does not
extend to the pre-built path, which skips the fix-up map (see the
counterexample). -/
theorem c2_sections_amended :
    (∀ vd : VisualData, (buildElementorFromVisual vd).isEmpty = false) ∧
    (∀ actual : VElement,
      ((buildFromRawStructure actual).all
        (fun n => n.elType != "section" || !n.elements.isEmpty)) = true) := by
  constructor
  · intro vd
    rw [buildElementorFromVisual]
    cases h : findElementorStructure vd with
    | none => rfl
    | some es =>
      show (if es.elements.length > 0 then es.elements
        else rawBuildFromScanRoot vd).isEmpty = false
      by_cases hlen : es.elements.length > 0
      · rw [if_pos hlen]
        cases hes : es.elements with
        | nil => rw [hes] at hlen; simp at hlen
        | cons a l => simp
      · rw [if_neg hlen]
        rfl
  · intro actual
    exact all_ensureSectionColumns _

/-- A section node with no columns, as the scraper's pre-built
`elementorStructure` can contain (`buildElementorStructure` maps children and
filters, possibly leaving an empty `elements` array). -/
def emptyPreBuiltSection : ENode :=
  .mk "section" none (.obj [("background_background", .str ""), ("padding",
    .obj [("top", .num 0), ("right", .num 0), ("bottom", .num 0), ("left", .num 0),
      ("unit", .str "px")])]) [] none

/-- A scan result carrying a pre-built Elementor structure whose only section
has no columns. -/
def vdPreBuilt : VisualData :=
  { visualStructure := some
      { elementorStructure := some (.mk "section" none (.obj []) [emptyPreBuiltSection] none) } }

/-- C2 counterexample: on the pre-built path `buildElementorFromVisual`
returns the found sections verbatim (visual-elementor-converter.js line 150),
before the ensure-columns fix-up, so the emitted document contains a Section
with zero Columns. -/
theorem c2_counterexample :
    buildElementorFromVisual vdPreBuilt = [emptyPreBuiltSection] ∧
    emptyPreBuiltSection.elType = "section" ∧
    emptyPreBuiltSection.elements = [] :=
  ⟨rfl, rfl, rfl⟩

mutual

/-- Wire encoding of an emitted node, as `JSON.stringify` sees it (field order
as constructed in the source; the random `id`/`_element_id` strings omitted
per the modelling conventions; widgets carry no `elements` key). -/
def enodeToJson : ENode → Json
  | .mk elType widgetType settings elements isInner =>
    .obj ([("elType", .str elType)] ++
      (match widgetType with | some w => [("widgetType", Json.str w)] | none => []) ++
      [("settings", settings)] ++
      (if elType = "widget" then [] else [("elements", .arr (enodesToJson elements))]) ++
      (match isInner with | some b => [("isInner", Json.bool b)] | none => []))

/-- Wire encoding of a node list. -/
def enodesToJson : List ENode → List Json
  | [] => []
  | n :: rest => enodeToJson n :: enodesToJson rest

end

/-- The `visualStructure` object as a JS value (the `||` fallback in the
verifier can hand this whole object to the structural comparison). -/
def vsToJson (vs : VS) : Json :=
  .obj ((match vs.elementorStructure with
      | some n => [("elementorStructure", enodeToJson n)]
      | none => []) ++
    (match vs.completeHTML with | some h => [("completeHTML", Json.str h)] | none => []) ++
    (match vs.styles with | some st => [("styles", Json.str st)] | none => []) ++
    (match vs.struct with | some j => [("structure", j)] | none => []))

/-- Field of an optional object, `null` when absent. -/
def getFieldD (o : Option Json) (k : String) : Json :=
  match o with
  | some r => (r.getField k).getD .null
  | none => .null

mutual

/-- The per-element layout-item extraction of `extractResponsiveFromClone`
(fidelity-verifier lines 299-322): elements with positive captured width and
height contribute a tagName/rect/styles item; recursion follows `children`. -/
def extractElements (el : Json) : List Json :=
  let rect := el.getField "layout"
  let w := (rect.map (fun r => r.getNumD "width")).getD 0
  let hgt := (rect.map (fun r => r.getNumD "height")).getD 0
  let item : List Json :=
    if w > 0 ∧ hgt > 0 then
      [.obj [("tagName",
          match el.getStr "tagName" with
          | some t => .str (toLowerStr t)
          | none => .null),
        ("rect", .obj [("x", .num ((rect.map (fun r => r.getNumD "x")).getD 0)),
          ("y", .num ((rect.map (fun r => r.getNumD "y")).getD 0)),
          ("width", .num w), ("height", .num hgt)]),
        ("styles", .obj [("position", getFieldD rect "position"),
          ("display", getFieldD rect "display"),
          ("backgroundColor", getFieldD rect "backgroundColor"),
          ("color", getFieldD rect "color"),
          ("fontSize", getFieldD rect "fontSize")])]]
    else []
  item ++
    (match h : el.getField "children" with
     | some (.arr cs) =>
       have : sizeOf cs < sizeOf el := by
         have h1 := getField_sizeOf_lt el "children" _ h
         simp only [Json.arr.sizeOf_spec] at h1
         omega
       extractElemsList cs
     | _ => [])
termination_by sizeOf el

/-- Recursion of `extractElements` over a `children` array. -/
def extractElemsList : List Json → List Json
  | [] => []
  | c :: rest => extractElements c ++ extractElemsList rest
termination_by cs => sizeOf cs

end

/-- The `extractResponsiveFromClone` conversion (fidelity-verifier lines
290-328): per device, a layout array is simulated from the captured structure
when one is present. -/
def extractResponsiveFromClone (sd : VisualData) : DeviceLayouts :=
  match sd.responsiveLayouts with
  | none => { desktop := none, tablet := none, mobile := none }
  | some m =>
    let per := fun (bl : Option BPLayout) =>
      match bl with
      | some b =>
        match b.struct with
        | some st => if jsTruthy st then some (extractElements st) else none
        | none => none
      | none => none
    { desktop := per m.desktop, tablet := per m.tablet, mobile := per m.mobile }

/-- The strict content-quality predicate `validateScannedContent`
(fidelity-verifier lines 799-828): a structurally valid capture plus at least
one more indicator (usable title, more than two images, or more than one
font). -/
def validateScannedContent (sd : VisualData) : Bool :=
  let sIndicator :=
    match sd.visualStructure with
    | some vs =>
      match vs.struct with
      | some st => jsTruthy st && hasValidContent st
      | none => false
    | none => false
  let mIndicator :=
    match sd.pageInfo.bind (·.title) with
    | some t => decide (t ≠ "") && decide (t.length > 0)
    | none => false
  let imagesInd := match sd.assets with | some a => decide (a.images.length > 2) | none => false
  let fontsInd := match sd.assets with | some a => decide (a.fonts.length > 1) | none => false
  let count := (if sIndicator then 1 else 0) + (if mIndicator then 1 else 0) +
    (if imagesInd then 1 else 0) + (if fontsInd then 1 else 0)
  sIndicator && decide (count ≥ 2)

/-- The cloned-structure resolution of `verifyFidelity` line 59:
`scannedData.visualStructure?.structure || scannedData.visualStructure`. -/
def clonedStructureOf (sd : VisualData) : Json :=
  match sd.visualStructure with
  | none => Json.null
  | some vs =>
    match vs.struct with
    | some st => if jsTruthy st then st else vsToJson vs
    | none => vsToJson vs

/-- The original-site capture result (`captureOriginalSite` return value). -/
structure OrigCapture where
  screenshots : DeviceShots
  responsive : DeviceLayouts
  struct : Json

/-- The rendered-clone capture result (`renderClonedStructure` return value). -/
structure CloneCapture where
  screenshots : DeviceShots
  responsive : DeviceLayouts
  previewHTML : String

/-- The FidelityReport fields the claims speak about (`verificationReport`
in fidelity-verifier lines 25-35; diagnostic details elided, the
fallback/error metadata kept as `fallbackUsed`/`errMsg`). -/
structure FReport where
  fidelityScore : ℚ
  visualScore : ℚ
  structuralScore : ℚ
  responsiveScore : ℚ
  passed : Bool
  fallbackUsed : Bool
  errMsg : Option String

/-- The effectful steps of one `verifyFidelity` run, as outcomes: browser
initialization (`await this.initialize()`, outside the try block), the
original-site capture, and the clone render.  `Except.error` models a thrown
JS exception. -/
structure VerifyEnv where
  initError : Option String
  originalCapture : Except String OrigCapture
  cloneRender : Except String CloneCapture

/-- The catch-block fallback of `verifyFidelity` (fidelity-verifier lines
96-145): conservative scores 0.25/0.15/0.20 when the scanned content
validates, 0.10/0.05/0.10 otherwise, overall recomputed through
`calculateOverallScore`, `passed` compared against the 0.45 threshold only in
the valid-content branch (hardcoded false otherwise). -/
def fallbackReport (e : String) (sd : VisualData) : FReport :=
  if validateScannedContent sd then
    let fid := calculateOverallScore 0.15 0.25 0.20
    { fidelityScore := fid, visualScore := 0.15, structuralScore := 0.25,
      responsiveScore := 0.20, passed := decide (fid ≥ 0.45), fallbackUsed := true,
      errMsg := some e }
  else
    let fid := calculateOverallScore 0.05 0.10 0.10
    { fidelityScore := fid, visualScore := 0.05, structuralScore := 0.10,
      responsiveScore := 0.10, passed := false, fallbackUsed := true, errMsg := some e }

/-- The `verifyFidelity` control flow (fidelity-verifier lines 19-146): a
failing browser initialization propagates (it precedes the try block); a
failing capture or render inside the try block degrades to the fallback
report; otherwise the three comparisons run and the report carries their
scores, the weighted overall score, and the 0.45-threshold verdict. -/
def verifyFidelity (env : VerifyEnv) (sd : VisualData) : Except String FReport :=
  match env.initError with
  | some e => .error e
  | none =>
    match env.originalCapture with
    | .error e => .ok (fallbackReport e sd)
    | .ok oc =>
      match env.cloneRender with
      | .error e => .ok (fallbackReport e sd)
      | .ok cc =>
        let visual := compareVisualFidelity oc.screenshots cc.screenshots
        let structural := compareStructuralFidelity oc.struct (clonedStructureOf sd)
        let responsive := compareResponsiveness (some oc.responsive)
          (some (extractResponsiveFromClone sd))
        let fid := calculateOverallScore visual structural responsive
        .ok { fidelityScore := fid, visualScore := visual,
              structuralScore := structural, responsiveScore := responsive,
              passed := decide (fid ≥ 0.45), fallbackUsed := false, errMsg := none }

/-- The first exception thrown inside `verifyFidelity`'s try block, if any. -/
def stepErrorOf (env : VerifyEnv) : Option String :=
  match env.originalCapture with
  | .error e => some e
  | .ok _ =>
    match env.cloneRender with
    | .error e => some e
    | .ok _ => none

/-- An empty scan result (no captured structure, metadata or assets). -/
def sdEmpty : VisualData := {}

/-- A run whose browser initialization fails before the try block. -/
def envInitFail : VerifyEnv :=
  { initError := some "Failed to launch the browser process"
    originalCapture := Except.error "not reached"
    cloneRender := Except.error "not reached" }

/-- C3 counterexample: `await this.initialize()` sits before the try/catch of
`verifyFidelity`, so a failing browser launch propagates as an exception — the
function does not return a FidelityReport for every input. -/
theorem c3_neverthrows_counterexample :
    verifyFidelity envInitFail sdEmpty =
      Except.error "Failed to launch the browser process" ∧
    ∀ r : FReport, verifyFidelity envInitFail sdEmpty ≠ Except.ok r := by
  constructor
  · rfl
  · intro r h
    rw [show verifyFidelity envInitFail sdEmpty =
      Except.error "Failed to launch the browser process" from rfl] at h
    cases h

/-- C3 (amended): once initialization has succeeded, `verifyFidelity` always
returns a report; and when the original capture or the clone render throws,
the returned report is exactly the catch-block fallback: structural 0.25,
visual 0.15, responsive 0.20 if the content-quality predicate holds, and
0.10/0.05/0.10 otherwise, with the overall score recomputed through the same
`calculateOverallScore` as the success path. -/
theorem c3_fallback_amended (env : VerifyEnv) (sd : VisualData)
    (h : env.initError = none) :
    ∃ r, verifyFidelity env sd = Except.ok r ∧
      ∀ e, stepErrorOf env = some e →
        r = fallbackReport e sd ∧
        r.visualScore = (if validateScannedContent sd then 0.15 else 0.05) ∧
        r.structuralScore = (if validateScannedContent sd then 0.25 else 0.10) ∧
        r.responsiveScore = (if validateScannedContent sd then 0.20 else 0.10) ∧
        r.fidelityScore =
          calculateOverallScore r.visualScore r.structuralScore r.responsiveScore := by
  rw [verifyFidelity, h]
  cases ho : env.originalCapture with
  | error e =>
    refine ⟨fallbackReport e sd, rfl, ?_⟩
    intro e2 he2
    rw [stepErrorOf, ho] at he2
    cases he2
    refine ⟨rfl, ?_, ?_, ?_, ?_⟩ <;>
      by_cases hv : validateScannedContent sd = true <;>
        simp [fallbackReport, hv]
  | ok oc =>
    cases hc : env.cloneRender with
    | error e =>
      refine ⟨fallbackReport e sd, rfl, ?_⟩
      intro e2 he2
      rw [stepErrorOf, ho, hc] at he2
      cases he2
      refine ⟨rfl, ?_, ?_, ?_, ?_⟩ <;>
        by_cases hv : validateScannedContent sd = true <;>
          simp [fallbackReport, hv]
    | ok cc =>
      refine ⟨_, rfl, ?_⟩
      intro e2 he2
      rw [stepErrorOf, ho, hc] at he2
      cases he2

/-- A run in which the original-site navigation fails inside the try block. -/
def envCaptureFail : VerifyEnv :=
  { initError := none
    originalCapture := Except.error "net::ERR_NAME_NOT_RESOLVED"
    cloneRender := Except.error "not reached" }

/-- Witness for the amended C3 theorem at a concrete failing capture. -/
theorem c3_fallback_witness :
    ∃ r, verifyFidelity envCaptureFail sdEmpty = Except.ok r ∧
      ∀ e, stepErrorOf envCaptureFail = some e →
        r = fallbackReport e sdEmpty ∧
        r.visualScore = (if validateScannedContent sdEmpty then 0.15 else 0.05) ∧
        r.structuralScore = (if validateScannedContent sdEmpty then 0.25 else 0.10) ∧
        r.responsiveScore = (if validateScannedContent sdEmpty then 0.20 else 0.10) ∧
        r.fidelityScore =
          calculateOverallScore r.visualScore r.structuralScore r.responsiveScore :=
  c3_fallback_amended envCaptureFail sdEmpty rfl

/-- The overall-score rule as the specification states it: weighted sum with
structural 0.5, visual 0.3, responsive 0.2, then boost (×1.3, floor 0.6) when
the sum is below 0.6 and structural or visual exceeds 0.4, else floor 0.5. -/
def specOverallScore (visualScore structuralScore responsiveScore : ℚ) : ℚ :=
  let w := 0.5 * structuralScore + 0.3 * visualScore + 0.2 * responsiveScore
  if w < 0.6 ∧ (structuralScore > 0.4 ∨ visualScore > 0.4) then max 0.6 (w * 1.3)
  else max 0.5 w

/-- An original capture with no screenshots, layouts or structure. -/
def ocEmpty : OrigCapture :=
  { screenshots := ⟨none, none, none⟩, responsive := ⟨none, none, none⟩,
    struct := Json.null }

/-- A clone capture with no screenshots or layouts. -/
def ccEmpty : CloneCapture :=
  { screenshots := ⟨none, none, none⟩, responsive := ⟨none, none, none⟩,
    previewHTML := "" }

/-- A run in which every step succeeds. -/
def envSuccess : VerifyEnv :=
  { initError := none, originalCapture := Except.ok ocEmpty,
    cloneRender := Except.ok ccEmpty }

/-- A captured element tree with text content, as a small real page yields. -/
def treeWithText : Json :=
  .obj [("tagName", .str "div"), ("textContent", .str "hello"),
    ("children", .arr [])]

/-- A scan result that passes the content-quality predicate: a structurally
valid capture plus a usable title. -/
def sdValid : VisualData :=
  { visualStructure := some { struct := some treeWithText }
    pageInfo := some { title := some "Example Domain" } }

/-- Helper: the content-quality predicate accepts `sdValid`. -/
theorem validate_sdValid : validateScannedContent sdValid = true := by
  have hc : countInElement "containers" treeWithText = 1 := by
    rw [countInElement]
    simp [Json.getStr, Json.getField, treeWithText, List.lookup, toLowerStr,
      countInChildren]
  have hv : hasValidContent treeWithText = true := by
    rw [hasValidContent, if_pos (by rfl)]
    simp only [countElementsInStructure, if_pos (show jsTruthy treeWithText = true from rfl), hc]
    simp
  rw [validateScannedContent]
  simp only [treeWithText] at hv
  simp [sdValid, hv, jsTruthy, treeWithText]
  rw [if_pos (show 0 < "Example Domain".length from by decide)]

/-- C4 (amended): `calculateOverallScore` is exactly the spec's weighted
boost/floor rule, is bounded below by 0.5 always and above by 1 for
sub-scores at most 1; and the report's `passed` flag is the comparison
`overall ≥ 0.45` on the success path and on the valid-content fallback path —
but not on the invalid-content fallback path, where it is hardcoded false
(see the counterexample). -/
theorem c4_overall_amended :
    (∀ v s r : ℚ, calculateOverallScore v s r = specOverallScore v s r) ∧
    (∀ v s r : ℚ, 0.5 ≤ calculateOverallScore v s r) ∧
    (∀ v s r : ℚ, v ≤ 1 → s ≤ 1 → r ≤ 1 → calculateOverallScore v s r ≤ 1) ∧
    (∀ env sd rep, env.initError = none → stepErrorOf env = none →
      verifyFidelity env sd = Except.ok rep →
      rep.passed = decide (rep.fidelityScore ≥ 0.45)) ∧
    (∀ env sd rep e, env.initError = none → stepErrorOf env = some e →
      validateScannedContent sd = true →
      verifyFidelity env sd = Except.ok rep →
      rep.passed = decide (rep.fidelityScore ≥ 0.45)) := by
  refine ⟨?_, ?_, ?_, ?_, ?_⟩
  · intro v s r
    rw [calculateOverallScore, specOverallScore,
      show v * 0.3 + s * 0.5 + r * 0.2 = 0.5 * s + 0.3 * v + 0.2 * r from by ring]
  · intro v s r
    rw [calculateOverallScore]
    split_ifs with hcond
    · calc (0.5 : ℚ) ≤ 0.6 := by norm_num
        _ ≤ max 0.6 ((v * 0.3 + s * 0.5 + r * 0.2) * 1.3) := le_max_left _ _
    · exact le_max_left _ _
  · intro v s r hv hs hr
    rw [calculateOverallScore]
    split_ifs with hcond
    · exact max_le (by norm_num) (by nlinarith [hcond.1])
    · exact max_le (by norm_num) (by nlinarith)
  · intro env sd rep h1 h2 h3
    rw [verifyFidelity, h1] at h3
    cases ho : env.originalCapture with
    | error e => rw [stepErrorOf, ho] at h2; cases h2
    | ok oc =>
      rw [ho] at h3
      cases hc : env.cloneRender with
      | error e => rw [stepErrorOf, ho, hc] at h2; cases h2
      | ok cc =>
        rw [hc] at h3
        cases h3
        rfl
  · intro env sd rep e h1 h2 hval h3
    rw [verifyFidelity, h1] at h3
    cases ho : env.originalCapture with
    | error e2 =>
      rw [ho] at h3
      cases h3
      rw [fallbackReport, if_pos hval]
    | ok oc =>
      rw [ho] at h3
      cases hc : env.cloneRender with
      | error e2 =>
        rw [hc] at h3
        cases h3
        rw [fallbackReport, if_pos hval]
      | ok cc => rw [stepErrorOf, ho, hc] at h2; cases h2

/-- Witness for the amended C4 theorem at concrete scores and runs. -/
theorem c4_overall_witness :
    calculateOverallScore 1 1 1 = specOverallScore 1 1 1 ∧
    0.5 ≤ calculateOverallScore 0 0 0 ∧
    ((1 : ℚ) ≤ 1 ∧ calculateOverallScore 1 1 1 ≤ 1) ∧
    (∃ rep, verifyFidelity envSuccess sdEmpty = Except.ok rep ∧
      rep.passed = decide (rep.fidelityScore ≥ 0.45)) ∧
    (∃ rep, verifyFidelity envCaptureFail sdValid = Except.ok rep ∧
      rep.passed = decide (rep.fidelityScore ≥ 0.45)) :=
  ⟨c4_overall_amended.1 1 1 1,
   c4_overall_amended.2.1 0 0 0,
   ⟨le_refl 1, c4_overall_amended.2.2.1 1 1 1 (le_refl 1) (le_refl 1) (le_refl 1)⟩,
   ⟨_, rfl, c4_overall_amended.2.2.2.1 envSuccess sdEmpty _ rfl rfl rfl⟩,
   ⟨_, rfl, c4_overall_amended.2.2.2.2 envCaptureFail sdValid _
     "net::ERR_NAME_NOT_RESOLVED" rfl rfl validate_sdValid rfl⟩⟩

/-- Helper: the invalid-content conservative scores floor to exactly 0.5. -/
theorem calcOverall_low : calculateOverallScore 0.05 0.10 0.10 = 0.5 := by
  rw [calculateOverallScore]
  rw [if_neg (by norm_num)]
  rw [max_eq_left (by norm_num)]

/-- C4 counterexample: on the invalid-content fallback path the report's
overall score is floored to 0.5, which clears the 0.45 threshold, yet
`passed` is hardcoded to false — `passed` is not the comparison
`overall ≥ 0.45` there. -/
theorem c4_passed_counterexample :
    verifyFidelity envCaptureFail sdEmpty =
      Except.ok (fallbackReport "net::ERR_NAME_NOT_RESOLVED" sdEmpty) ∧
    (fallbackReport "net::ERR_NAME_NOT_RESOLVED" sdEmpty).fidelityScore = 0.5 ∧
    (fallbackReport "net::ERR_NAME_NOT_RESOLVED" sdEmpty).fidelityScore ≥ 0.45 ∧
    (fallbackReport "net::ERR_NAME_NOT_RESOLVED" sdEmpty).passed = false := by
  have hfb : fallbackReport "net::ERR_NAME_NOT_RESOLVED" sdEmpty =
      { fidelityScore := calculateOverallScore 0.05 0.10 0.10, visualScore := 0.05,
        structuralScore := 0.10, responsiveScore := 0.10, passed := false,
        fallbackUsed := true, errMsg := some "net::ERR_NAME_NOT_RESOLVED" } := by
    rw [fallbackReport, if_neg (by simp [show validateScannedContent sdEmpty = false from rfl])]
  refine ⟨rfl, ?_, ?_, ?_⟩
  · rw [hfb]
    exact calcOverall_low
  · rw [hfb]
    show calculateOverallScore 0.05 0.10 0.10 ≥ 0.45
    rw [calcOverall_low]
    norm_num
  · rw [hfb]

/-- Outcomes of the three navigation attempts `captureOriginalSite` can make
(fidelity-verifier lines 156-205): `none` means `page.goto` resolves, `some e`
that it rejects with error `e`. -/
structure NavEnv where
  networkidle0 : Option String
  networkidle2 : Option String
  domcontentloaded : Option String

/-- The progressive navigation cascade of `captureOriginalSite`
(fidelity-verifier lines 156-205): strategy 1 `networkidle0` (60s), then
strategy 2 `networkidle2` (45s), then strategy 3 `domcontentloaded` (30s plus
a settle delay), taking the first success; all three failing rethrows the
last error.  Returns the list of attempted wait strategies and the outcome
(the successful strategy's name, or the propagated error). -/
def captureOriginalNav (env : NavEnv) : List String × Except String String :=
  match env.networkidle0 with
  | none => (["networkidle0"], .ok "networkidle0")
  | some _ =>
    match env.networkidle2 with
    | none => (["networkidle0", "networkidle2"], .ok "networkidle2")
    | some _ =>
      match env.domcontentloaded with
      | none =>
        (["networkidle0", "networkidle2", "domcontentloaded"], .ok "domcontentloaded")
      | some e3 =>
        (["networkidle0", "networkidle2", "domcontentloaded"], .error e3)

/-- The single navigation attempt of the initial scrape `scrapeVisualLayout`
(visual-scraper.js lines 430-434): one `page.goto` with the combined
`['networkidle0', 'domcontentloaded']` wait condition and a 30s timeout; its
rejection propagates with no further strategy attempted.  Returns the list of
attempts (each attempt's waitUntil list) and the outcome. -/
def scrapeNav (outcome : Option String) : List (List String) × Except String Unit :=
  match outcome with
  | none => ([["networkidle0", "domcontentloaded"]], .ok ())
  | some e => ([["networkidle0", "domcontentloaded"]], .error e)

/-- C7 (amended): the three-strategy cascade lives in the verifier's
original-site capture: strategies are attempted in the strict order
`networkidle0`, `networkidle2`, `domcontentloaded`, the first success is
taken, and when all three fail the last error is propagated.  The initial
scrape's navigation makes exactly one combined-wait attempt and propagates
its error directly (see the counterexample). -/
theorem c7_cascade_amended :
    (captureOriginalNav ⟨none, none, none⟩ = (["networkidle0"], .ok "networkidle0")) ∧
    (∀ e1, captureOriginalNav ⟨some e1, none, none⟩ =
      (["networkidle0", "networkidle2"], .ok "networkidle2")) ∧
    (∀ e1 e2, captureOriginalNav ⟨some e1, some e2, none⟩ =
      (["networkidle0", "networkidle2", "domcontentloaded"], .ok "domcontentloaded")) ∧
    (∀ e1 e2 e3, captureOriginalNav ⟨some e1, some e2, some e3⟩ =
      (["networkidle0", "networkidle2", "domcontentloaded"], .error e3)) ∧
    (∀ e, scrapeNav (some e) = ([["networkidle0", "domcontentloaded"]], .error e)) ∧
    (scrapeNav none = ([["networkidle0", "domcontentloaded"]], .ok ())) :=
  ⟨rfl, fun _ => rfl, fun _ _ => rfl, fun _ _ _ => rfl, fun _ => rfl, rfl⟩

/-- C7 counterexample: on an unreachable host the initial scrape's capture
step attempts exactly one wait strategy, not three — the cascade exists only
in the verifier's `captureOriginalSite`, not in `scrapeVisualLayout`. -/
theorem c7_cascade_counterexample :
    (scrapeNav (some "net::ERR_NAME_NOT_RESOLVED")).1.length = 1 ∧
    (scrapeNav (some "net::ERR_NAME_NOT_RESOLVED")).2 =
      Except.error "net::ERR_NAME_NOT_RESOLVED" ∧
    (1 : Nat) ≠ 3 :=
  ⟨rfl, rfl, by decide⟩

/-- The converter instance's mutable state (visual-elementor-converter.js
lines 3-8): the constructor initializes `globalColors` and `globalFonts` as
empty Sets, and no method ever clears them.  A JS `Set` keeps insertion
order, modelled as a duplicate-free ordered list. -/
structure ConvState where
  globalColors : List String
  globalFonts : List String

/-- Insertion-ordered `Set.add`: append unless already present. -/
def setAdd (s : List String) (x : String) : List String :=
  if s.contains x then s else s ++ [x]

/-- The color filter of `extractGlobalAssets` (line 84): keep truthy colors
other than `transparent` and `rgba(0, 0, 0, 0)`. -/
def keepColor (c : String) : Bool :=
  strTruthy c && !(c == "transparent") && !(c == "rgba(0, 0, 0, 0)")

/-- The font filter of `extractGlobalAssets` (line 93): keep truthy fonts
other than `inherit`. -/
def keepFont (f : String) : Bool :=
  strTruthy f && !(f == "inherit")

/-- The `extractGlobalAssets` method (visual-elementor-converter.js lines
78-98): each request's captured colors and fonts are merged into the
instance-level Sets; a missing asset bundle leaves the state unchanged. -/
def extractGlobalAssets (st : ConvState) (assets : Option Assets) : ConvState :=
  match assets with
  | none => st
  | some a =>
    { globalColors :=
        a.colors.foldl (fun acc c => if keepColor c then setAdd acc c else acc) st.globalColors,
      globalFonts :=
        a.fonts.foldl (fun acc f => if keepFont f then setAdd acc f else acc) st.globalFonts }

/-- One `custom_colors` palette entry of `buildPageSettings` (lines 937-941);
the random `_id` is omitted per the modelling conventions. -/
def colorEntry (p : Nat × String) : Json :=
  .obj [("title", .str ("Color " ++ toString (p.1 + 1))), ("color", .str p.2)]

/-- One `custom_fonts` palette entry of `buildPageSettings` (lines 942-947). -/
def fontEntry (p : Nat × String) : Json :=
  .obj [("title", .str ("Font " ++ toString (p.1 + 1))),
        ("font_family", .str p.2), ("font_weight", .str "400")]

/-- The fixed `system_colors` block of `buildPageSettings` (lines 948-953). -/
def systemColors : Json :=
  .arr [
    .obj [("title", .str "Primary"), ("color", .str "#6ec1e4")],
    .obj [("title", .str "Secondary"), ("color", .str "#54595f")],
    .obj [("title", .str "Text"), ("color", .str "#7a7a7a")],
    .obj [("title", .str "Accent"), ("color", .str "#61ce70")]]

/-- The `buildPageSettings` method (lines 934-955): the first 8 accumulated
colors and first 6 accumulated fonts become the document palettes, titled by
their position in the sliced array. -/
def buildPageSettings (st : ConvState) : List (String × Json) :=
  [("template", .str "elementor_canvas"),
   ("custom_colors", .arr ((st.globalColors.take 8).enum.map colorEntry)),
   ("custom_fonts", .arr ((st.globalFonts.take 6).enum.map fontEntry)),
   ("system_colors", systemColors)]

/-- The `buildResponsiveSettings` method (lines 916-932): a truthy
`responsiveLayouts` adds the two viewport keys; the per-device loop adds
nothing. -/
def buildResponsiveSettings (rl : Option BPmap) : List (String × Json) :=
  match rl with
  | none => []
  | some _ => [("viewport_mobile", .num 767), ("viewport_tablet", .num 1024)]

/-- The fixed responsive-CSS block appended by `buildOptimizedCSS`
(lines 970-977). -/
def baseResponsiveCSS : String :=
  "\n/* Essential responsive CSS only */\n.elementor-widget:hover \x7b transition: all 0.3s ease; \x7d\n.elementor-widget-image img \x7b max-width: 100%; height: auto; \x7d\n@media (max-width: 768px) \x7b\n  .elementor-section \x7b padding: 15px 10px; \x7d\n\x7d\n"

/-- The `buildOptimizedCSS` method (lines 957-980): up to three gradient
rules from the request's assets, then the fixed responsive block, trimmed. -/
def buildOptimizedCSS (vd : VisualData) : String :=
  let grads : String :=
    match vd.assets with
    | some a =>
      if a.gradients.length > 0 then
        concatStrs ((a.gradients.take 3).enum.map (fun p =>
          ".custom-gradient-" ++ toString p.1 ++ " \x7b background: " ++ p.2 ++ "; \x7d\n"))
      else ""
    | none => ""
  jsTrim (grads ++ baseResponsiveCSS)

/-- The `countTotalElements` method (lines 982-997): one count per section,
one per column, plus each column's child-widget count. -/
def countTotalElements (content : List ENode) : Nat :=
  content.foldl (fun acc s =>
    s.elements.foldl (fun acc2 c => acc2 + 1 + c.elements.length) (acc + 1)) 0

/-- The metadata score `verificationReport?.fidelityScore || 0` (line 53). -/
def verifScore (r : Option FReport) : ℚ :=
  match r with
  | some rep => rep.fidelityScore
  | none => 0

/-- The metadata flag `verificationReport?.passed || false` (line 54). -/
def verifPassed (r : Option FReport) : Bool :=
  match r with
  | some rep => rep.passed
  | none => false

/-- The metadata URL `visualData.url || pageInfo?.url` (line 49). -/
def metaSourceUrl (vd : VisualData) : Option String :=
  match vd.url with
  | some u => if strTruthy u then some u else vd.pageInfo.bind (·.url)
  | none => vd.pageInfo.bind (·.url)

/-- Render an optional string as an object field; an undefined value yields
no field, exactly as `JSON.stringify` drops undefined-valued properties. -/
def optStrField (k : String) (o : Option String) : List (String × Json) :=
  match o with
  | some s => [(k, .str s)]
  | none => []

/-- The template assembly of `convertVisualToElementor` (lines 36-60), with
the post-extraction state supplying the palettes; the `created_at` timestamp
is omitted per the modelling conventions, and the three `page_settings`
spreads concatenate (their key sets are disjoint, so spread override never
fires). -/
def convertAssembleTemplate (st : ConvState) (vd : VisualData) (verif : Option FReport)
    (content : List ENode) : Json :=
  .obj [
    ("version", .str "0.4"),
    ("title", .str (jsOrS (vd.pageInfo.bind (·.title)) "Cloned Page")),
    ("type", .str "page"),
    ("content", .arr (enodesToJson content)),
    ("page_settings", .obj (buildPageSettings st ++
      buildResponsiveSettings vd.responsiveLayouts ++
      [("custom_css", .str (buildOptimizedCSS vd))])),
    ("metadata", .obj (optStrField "source_url" (metaSourceUrl vd) ++
      [("cloned_by", .str "CloneMentor Pro v2.1 - Optimized"),
       ("elementor_version", .str "3.16.0"),
       ("clone_version", .str "2.1"),
       ("fidelity_score", .num (verifScore verif)),
       ("verification_passed", .bool (verifPassed verif)),
       ("total_elements", .num (countTotalElements content : ℚ)),
       ("sections_count", .num (content.length : ℚ)),
       ("capture_method", .str "lean-structure-focused")]))]

/-- Whitespace characters of the regex class `\s` over the source's ASCII
and no-break inputs. -/
def isWsChar (c : Char) : Bool :=
  c = ' ' || c = '\t' || c = '\n' || c = '\r' || c = '\u000B' || c = '\u000C' || c = ' '

/-- Run-collapsing pass of `compressHtml` (`.replace(/\s+/g, ' ')`, line
1216); the flag records whether the previous character was whitespace. -/
def collapseWsAux : List Char → Bool → List Char
  | [], _ => []
  | c :: rest, inRun =>
    if isWsChar c then
      if inRun then collapseWsAux rest true else ' ' :: collapseWsAux rest true
    else c :: collapseWsAux rest false

/-- Entry point of the whitespace-collapsing pass. -/
def collapseWs (cs : List Char) : List Char := collapseWsAux cs false

/-- Inter-tag space removal of `compressHtml` (`.replace(/>\s+</g, '><')`,
line 1217): after the collapse pass every whitespace run is a single
space, so the pattern is exactly the three characters here. -/
def removeGtSpLt : List Char → List Char
  | '>' :: ' ' :: '<' :: rest2 => '>' :: '<' :: removeGtSpLt rest2
  | c :: rest => c :: removeGtSpLt rest
  | [] => []

/-- Scan for the closing `-->` of an HTML comment; `none` when the input has
no closer, in which case the regex `<!--[\s\S]*?-->` matches nothing. -/
def findCommentEnd : List Char → Option (List Char)
  | '-' :: '-' :: '>' :: rest2 => some rest2
  | _ :: rest => findCommentEnd rest
  | [] => none

/-- Comment removal of `compressHtml` (`.replace(/<!--[\s\S]*?-->/g, '')`,
line 1218), with an explicit step budget: every step consumes at least one
input character, so a budget of the input length makes the zero-fuel arm
unreachable. -/
def stripCommentsFuel : Nat → List Char → List Char
  | 0, cs => cs
  | _ + 1, [] => []
  | fuel + 1, '<' :: '!' :: '-' :: '-' :: rest2 =>
    match findCommentEnd rest2 with
    | some rest3 => stripCommentsFuel fuel rest3
    | none => '<' :: '!' :: '-' :: '-' :: rest2
  | fuel + 1, c :: rest => c :: stripCommentsFuel fuel rest

/-- Entry point of the comment-removal pass. -/
def stripComments (cs : List Char) : List Char := stripCommentsFuel cs.length cs

/-- The `compressHtml` method (lines 1213-1220): collapse whitespace, drop
single spaces between tags, strip comments, trim. -/
def compressHtml (html : String) : String :=
  jsTrim (String.mk (stripComments (removeGtSpLt (collapseWs html.toList))))

mutual

/-- Fields pass of `compressHtmlContent`'s `compressContent` walk
(lines 1195-1208). -/
def compressFields : List (String × Json) → List (String × Json)
  | [] => []
  | (k, v) :: rest => (k, compressVal v) :: compressFields rest

/-- Per-value body of the `compressContent` walk: strings longer than 2000
characters containing `<` are compressed; containers recurse; the rest is
copied. -/
def compressVal : Json → Json
  | .str s =>
    if decide (s.length > 2000) && containsChar s '<' then .str (compressHtml s) else .str s
  | .obj fields => .obj (compressFields fields)
  | .arr xs => .arr (compressElems xs)
  | v => v

/-- Array pass of the `compressContent` walk. -/
def compressElems : List Json → List Json
  | [] => []
  | v :: rest => compressVal v :: compressElems rest

end

/-- The `compressHtmlContent` method (lines 1193-1211): walk the template's
containers; a non-object top level is returned untouched. -/
def compressHtmlContent (j : Json) : Json :=
  match j with
  | .obj fields => .obj (compressFields fields)
  | .arr xs => .arr (compressElems xs)
  | v => v

/-- Copy one metadata field into the reduced metadata block of
`smartCleanTemplate` (lines 1174-1180); an undefined source field yields no
field, as `JSON.stringify` would drop it. -/
def mdGet (md : Json) (k : String) : List (String × Json) :=
  match md.getField k with
  | some v => [(k, v)]
  | none => []

/-- The reduced `essentialMetadata` object of `smartCleanTemplate`
(lines 1174-1180). -/
def smartMeta (md : Json) : Json :=
  .obj (mdGet md "created_at" ++ mdGet md "source_url" ++
        [("cloned_by", .str "CloneMentor Pro - Smart Clean")] ++
        mdGet md "fidelity_score" ++ mdGet md "elementsCount")

/-- The `smartCleanTemplate` method (lines 1165-1191): deep-copy (identity
on the model), replace a truthy `metadata` by the reduced block, then
compress oversized HTML strings in place. -/
def smartCleanTemplate (template : Json) : Json :=
  let t :=
    match template.getField "metadata" with
    | some md => if jsTruthy md then template.setField "metadata" (smartMeta md) else template
    | none => template
  compressHtmlContent t

/-- The `convertVisualToElementor` entry point (lines 19-76) with the
instance state passed explicitly: merge the request's assets into the
accumulator Sets, build the content and template, run the unconditional
cleaning pass, and smart-clean only above the 150000-byte serialized size.
The pair returns the response template and the instance state left behind. -/
def convertVisualToElementor (st : ConvState) (vd : VisualData) (verif : Option FReport) :
    Json × ConvState :=
  let st2 := extractGlobalAssets st vd.assets
  let content := buildElementorFromVisual vd
  let template := convertAssembleTemplate st2 vd verif content
  let validated := cleanContent template
  let out :=
    if (jsonStringify validated).length > 150000 then smartCleanTemplate validated
    else validated
  (out, st2)

/-- Extract the `custom_colors` array of a template's `page_settings`. -/
def customColorsOf (t : Json) : Option Json :=
  (t.getField "page_settings").bind (fun ps => ps.getField "custom_colors")

/-- The color strings of a template's `custom_colors` palette. -/
def paletteColors (t : Json) : List String :=
  match customColorsOf t with
  | some (.arr entries) => entries.filterMap (fun e => e.getStr "color")
  | _ => []

/-- Helper: adding to an insertion-ordered set only appends. -/
theorem setAdd_extends (s : List String) (x : String) : ∃ e, setAdd s x = s ++ e := by
  unfold setAdd
  split
  · exact ⟨[], (List.append_nil s).symm⟩
  · exact ⟨[x], rfl⟩

/-- Helper: a filtered set-insertion fold only appends to its accumulator. -/
theorem foldlSetAdd_extends (p : String → Bool) :
    ∀ (l acc : List String),
      ∃ e, l.foldl (fun a c => if p c then setAdd a c else a) acc = acc ++ e := by
  intro l
  induction l with
  | nil => intro acc; exact ⟨[], (List.append_nil acc).symm⟩
  | cons c l ih =>
    intro acc
    rw [List.foldl_cons]
    by_cases hp : p c = true
    · rw [if_pos hp]
      rcases ih (setAdd acc c) with ⟨e2, h2⟩
      rcases setAdd_extends acc c with ⟨e1, h1⟩
      exact ⟨e1 ++ e2, by rw [h2, h1, List.append_assoc]⟩
    · rw [if_neg hp]
      exact ih acc

/-- A first scan request whose captured palette holds one green color. -/
def reqA : VisualData :=
  { assets := some ({ colors := ["#00ff00"] } : Assets) }

/-- A second, unrelated scan request whose captured palette holds one red
color. -/
def reqB : VisualData :=
  { assets := some ({ colors := ["#ff0000"] } : Assets) }

/-- The converter state left behind after serving `reqA` from a fresh
instance. -/
def stAfterA : ConvState := (convertVisualToElementor ⟨[], []⟩ reqA none).2

/-- C8 (amended): the converter is deterministic only relative to the
instance state the route's module-level singleton carries across requests:
the response and post-state are functions of (pre-state, request, report);
the post-state is exactly the pre-state with the request's filtered colors
and fonts merged in — it extends the pre-state and is never cleared, so
captured palette data persists after the response is returned; and two
conversions of the same request agree whenever their merged asset states
agree (in particular from a fresh instance). -/
theorem c8_freshness_amended (st : ConvState) (vd : VisualData) (verif : Option FReport) :
    ((convertVisualToElementor st vd verif).2 = extractGlobalAssets st vd.assets) ∧
    (∃ ec, (convertVisualToElementor st vd verif).2.globalColors = st.globalColors ++ ec) ∧
    (∃ ef, (convertVisualToElementor st vd verif).2.globalFonts = st.globalFonts ++ ef) ∧
    (∀ st2, extractGlobalAssets st vd.assets = extractGlobalAssets st2 vd.assets →
      (convertVisualToElementor st vd verif).1 = (convertVisualToElementor st2 vd verif).1) := by
  refine ⟨rfl, ?_, ?_, ?_⟩
  · show ∃ ec, (extractGlobalAssets st vd.assets).globalColors = st.globalColors ++ ec
    cases ha : vd.assets with
    | none => exact ⟨[], (List.append_nil _).symm⟩
    | some a =>
      simp only [extractGlobalAssets]
      exact foldlSetAdd_extends keepColor a.colors st.globalColors
  · show ∃ ef, (extractGlobalAssets st vd.assets).globalFonts = st.globalFonts ++ ef
    cases ha : vd.assets with
    | none => exact ⟨[], (List.append_nil _).symm⟩
    | some a =>
      simp only [extractGlobalAssets]
      exact foldlSetAdd_extends keepFont a.fonts st.globalFonts
  · intro stB h
    simp only [convertVisualToElementor]
    rw [h]

/-- C8 witness: the determinism conjunct applied at a fresh instance and the
concrete red-palette request, its equal-merged-state hypothesis discharged by
reflexivity. -/
theorem c8_freshness_witness :
    (convertVisualToElementor ⟨[], []⟩ reqB none).1 =
      (convertVisualToElementor ⟨[], []⟩ reqB none).1 :=
  (c8_freshness_amended ⟨[], []⟩ reqB none).2.2.2 ⟨[], []⟩ rfl

/-- C8 counterexample: converting the red-palette request on the instance
state left behind by the green-palette request emits a `custom_colors`
palette that still carries the previous request's green — the emitted
document is not a function of the request's captured data alone. -/
theorem c8_freshness_counterexample :
    paletteColors (convertVisualToElementor stAfterA reqB none).1 = ["#00ff00", "#ff0000"] ∧
    paletteColors (convertVisualToElementor ⟨[], []⟩ reqB none).1 = ["#ff0000"] ∧
    ("#00ff00" :: ["#ff0000"]) ≠ ["#ff0000"] := by
  refine ⟨?_, ?_, by decide⟩
  · simp only [convertVisualToElementor]
    split
    · rfl
    · rfl
  · simp only [convertVisualToElementor]
    split
    · rfl
    · rfl

/-- JS `Math.min` on two numbers. -/
def jsMinQ (a b : ℚ) : ℚ := if a ≤ b then a else b

/-- The progress values `scrapeVisualLayout` hands its callback, in emission
order (visual-scraper.js lines 422-499; the three per-device emissions are
`28 + i * Math.floor(7 / 3)` for `i = 0, 1, 2`). -/
def scraperEmits : List ℚ := [2, 8, 15, 22, 28, 28, 30, 32, 42, 58, 72, 88, 95]

/-- The progress values `verifyFidelity` hands its callback, in emission
order (fidelity-verifier lines 22-74). -/
def verifierEmits : List ℚ := [5, 20, 40, 60, 75, 85, 95]

/-- The route's cap on scraper progress (clone.js line 59):
`Math.min(data.progress || 0, 95)`. -/
def capScraper (p : ℚ) : ℚ := jsMinQ p 95

/-- The route's squeeze of verifier progress into the 96-97 band
(clone.js line 76): `Math.min(96 + ((data.progress || 0) * 0.01), 97)`. -/
def capVerifier (p : ℚ) : ℚ := jsMinQ (96 + p * 0.01) 97

/-- The route's proceed predicate (clone.js lines 98-100): skip flag, or the
report passed, or a score of at least 0.4 with at most one failed initial
check. -/
def shouldProceed (skipV passedR : Bool) (fid : ℚ) (failedChecks : Nat) : Bool :=
  skipV || passedR || (decide (fid ≥ 0.4) && decide (failedChecks ≤ 1))

/-- The route's hard-failure predicate inside the warning branch
(clone.js line 110): score below 0.3 and more than one failed check. -/
def hardFail (fid : ℚ) (failedChecks : Nat) : Bool :=
  decide (fid < 0.3) && decide (failedChecks > 1)

/-- The progress values emitted after verification resolves (clone.js lines
142-215): 97 (converting), 98 (final validation), then 99 on the
template-validation failure return or 100 on success. -/
def scanRest (cf : Bool) : List ℚ :=
  97 :: 98 :: (if cf then [99] else [100])

/-- The full sequence of progress values one scan request delivers to the
progress callback (clone.js lines 56-215): 1, the capped scraper emissions,
96, the squeezed verifier emissions, then either the post-verification tail
directly (proceed) or a 90 `verification_warning` first — ending there when
the hard-failure return fires. -/
def scanTrace (vs : List ℚ) (skipV passedR : Bool) (fid : ℚ) (failedChecks : Nat)
    (cf : Bool) : List ℚ :=
  1 :: (scraperEmits.map capScraper ++
    96 :: (vs.map capVerifier ++
      (if shouldProceed skipV passedR fid failedChecks then scanRest cf
       else 90 :: (if hardFail fid failedChecks then [] else scanRest cf))))

/-- Helper: every scraper emission is at most 95, so the cap fixes them. -/
theorem capScraper_fixed : scraperEmits.map capScraper = scraperEmits := by
  norm_num [scraperEmits, capScraper, jsMinQ]

/-- Helper: the verifier squeeze never exceeds 97. -/
theorem capVerifier_le97 (p : ℚ) : capVerifier p ≤ 97 := by
  unfold capVerifier jsMinQ
  split
  · linarith
  · norm_num

/-- Helper: the verifier squeeze of a non-negative emission is at least 96. -/
theorem capVerifier_ge96 (p : ℚ) (hp : 0 ≤ p) : 96 ≤ capVerifier p := by
  unfold capVerifier jsMinQ
  split
  · nlinarith
  · norm_num

/-- Helper: the verifier squeeze is monotone. -/
theorem capVerifier_mono (a b : ℚ) (h : a ≤ b) : capVerifier a ≤ capVerifier b := by
  by_cases ha : 96 + a * 0.01 ≤ 97 <;> by_cases hb : 96 + b * 0.01 ≤ 97 <;>
    simp [capVerifier, jsMinQ, ha, hb] <;> linarith

/-- Helper: the post-verification tail is non-decreasing. -/
theorem chain_scanRest (cf : Bool) : List.Chain' (· ≤ ·) (scanRest cf) := by
  cases cf <;> norm_num [scanRest, List.chain'_cons, List.chain'_singleton]

/-- Helper: squeezed emissions of a non-decreasing verifier run, followed by
the tail, are non-decreasing. -/
theorem chain_mapVerifier (cf : Bool) :
    ∀ vs : List ℚ, List.Chain' (· ≤ ·) vs →
      List.Chain' (· ≤ ·) (vs.map capVerifier ++ scanRest cf) := by
  intro vs
  induction vs with
  | nil => intro _; simpa using chain_scanRest cf
  | cons v vs' ih =>
    intro hch
    rw [List.map_cons, List.cons_append, List.chain'_cons']
    constructor
    · intro y hy
      cases vs' with
      | nil =>
        simp [scanRest] at hy
        subst hy
        exact capVerifier_le97 v
      | cons w vs'' =>
        simp at hy
        subst hy
        exact capVerifier_mono v w (List.chain'_cons.mp hch).1
    · cases vs' with
      | nil => exact ih List.chain'_nil
      | cons w vs'' => exact ih (List.chain'_cons.mp hch).2

/-- Helper: 96 followed by squeezed non-negative emissions and the tail is
non-decreasing. -/
theorem chain96_verifier (cf : Bool) (vs : List ℚ) (hch : List.Chain' (· ≤ ·) vs)
    (hpos : ∀ p ∈ vs, 0 ≤ p) :
    List.Chain' (· ≤ ·) ((96 : ℚ) :: (vs.map capVerifier ++ scanRest cf)) := by
  rw [List.chain'_cons']
  refine ⟨?_, chain_mapVerifier cf vs hch⟩
  intro y hy
  cases vs with
  | nil =>
    simp [scanRest] at hy
    subst hy
    norm_num
  | cons v vs' =>
    simp at hy
    subst hy
    exact capVerifier_ge96 v (hpos v (by simp))

/-- C9 (amended): on the proceed path (skip flag, passed report, or score at
least 0.4 with at most one failed check) the progress values delivered in one
scan request are monotonically non-decreasing, for any non-decreasing
sequence of non-negative verifier emissions — and in particular for the
verifier's actual ones.  On the warning path the route emits 90 after the
96-97 verification band, so monotonicity fails (see the counterexample). -/
theorem c9_progress_amended (vs : List ℚ) (skipV passedR : Bool) (fid : ℚ)
    (failedChecks : Nat) (cf : Bool)
    (hch : List.Chain' (· ≤ ·) vs) (hpos : ∀ p ∈ vs, 0 ≤ p)
    (hsp : shouldProceed skipV passedR fid failedChecks = true) :
    List.Chain' (· ≤ ·) (scanTrace vs skipV passedR fid failedChecks cf) := by
  have h96 := chain96_verifier cf vs hch hpos
  unfold scanTrace
  rw [hsp, capScraper_fixed]
  simp only [if_true]
  simp only [scraperEmits, List.cons_append, List.nil_append]
  simp only [List.chain'_cons]
  exact ⟨by norm_num, by norm_num, by norm_num, by norm_num, by norm_num, by norm_num,
    by norm_num, by norm_num, by norm_num, by norm_num, by norm_num, by norm_num,
    by norm_num, by norm_num, h96⟩

/-- C9 witness: the amended theorem at the verifier's actual emission values
on the skip-verification proceed path, all hypotheses discharged concretely. -/
theorem c9_progress_witness :
    List.Chain' (· ≤ ·) verifierEmits ∧
    shouldProceed true false 0 0 = true ∧
    List.Chain' (· ≤ ·) (scanTrace verifierEmits true false 0 0 false) := by
  have hch : List.Chain' (· ≤ ·) verifierEmits := by
    norm_num [verifierEmits, List.chain'_cons, List.chain'_singleton]
  have hsp : shouldProceed true false 0 0 = true := by simp [shouldProceed]
  exact ⟨hch, hsp,
    c9_progress_amended verifierEmits true false 0 0 false hch
      (by norm_num [verifierEmits]) hsp⟩

/-- C9 counterexample: a report that neither passes nor reaches the 0.4
score band (score 0.35 with two failed initial checks, no skip flag) takes
the warning path, whose 90 emission follows the 96 verification emission:
the delivered sequence is not monotonically non-decreasing. -/
theorem c9_progress_counterexample :
    ¬ List.Chain' (· ≤ ·) (scanTrace [] false false 0.35 2 false) := by
  intro h
  have hno : ¬((0.35 : ℚ) ≥ 0.4) := by norm_num
  have hno2 : ¬((0.35 : ℚ) < 0.3) := by norm_num
  have h1 : shouldProceed false false 0.35 2 = false := by
    simp [shouldProceed, decide_eq_false hno]
  have h2 : hardFail 0.35 2 = false := by
    simp [hardFail, decide_eq_false hno2]
  rw [scanTrace, capScraper_fixed, h1, h2] at h
  norm_num [scraperEmits, scanRest, List.chain'_cons, List.chain'_singleton,
    List.cons_append, List.nil_append] at h

/-- The id alphabet of `generateElementId` (visual-elementor-converter.js
line 11, and the identical copy in elementor-converter.js): the 26 lowercase
letters followed by the 10 digits. -/
def idChars : List Char := "abcdefghijklmnopqrstuvwxyz0123456789".toList

/-- Helper: the alphabet has 36 characters, so `Math.floor(Math.random() *
chars.length)` ranges over `Fin 36`. -/
theorem idChars_length : idChars.length = 36 := by decide

/-- The `generateElementId` method (lines 10-17), with the stream of
`Math.floor(Math.random() * 36)` draws passed explicitly: the 8 draws from
position `start` index into the alphabet. -/
def generateElementId (draw : Nat → Fin 36) (start : Nat) : String :=
  String.mk ((List.range 8).map
    (fun i => idChars.get (Fin.cast idChars_length.symm (draw (start + i)))))

/-- The two ids minted by `createDefaultSection` (lines 1001-1022): the
section's own id from the first 8 draws, then the default column's id from
the next 8. -/
def createDefaultSectionIds (draw : Nat → Fin 36) : String × String :=
  (generateElementId draw 0, generateElementId draw 8)

/-- A draw stream in which every `Math.floor(Math.random() * 36)` call
returns 0. -/
def constDraw : Nat → Fin 36 := fun _ => ⟨0, by norm_num⟩

/-- C10 (amended): every generated identifier is an 8-character string over
the lowercase-alphanumeric alphabet, for every draw stream and position; but
nothing enforces distinctness — ids are independent random draws with no
collision check, so a stream that repeats yields duplicate ids within one
document (see the counterexample). -/
theorem c10_ids_amended (draw : Nat → Fin 36) (start : Nat) :
    (generateElementId draw start).length = 8 ∧
    ∀ c ∈ (generateElementId draw start).toList, c ∈ idChars := by
  constructor
  · simp [generateElementId, String.length]
  · intro c hc
    simp only [generateElementId, String.toList, List.mem_map, List.mem_range] at hc
    obtain ⟨i, _, rfl⟩ := hc
    exact List.get_mem _ _ _

/-- C10 counterexample: under a repeating draw stream the default section and
its default column receive the same id, so identifiers within one emitted
document are not pairwise distinct — `Math.random` draws carry no uniqueness
guarantee or collision check. -/
theorem c10_ids_counterexample :
    (createDefaultSectionIds constDraw).1 = (createDefaultSectionIds constDraw).2 ∧
    (createDefaultSectionIds constDraw).1 = "aaaaaaaa" := by
  exact ⟨rfl, rfl⟩
